import Mathlib

/-!
# Engine lifecycle and session options of `win32/clamav-for-windows/interface.c`

A shallow embedding of the lifecycle manager (`Scan_Initialize`,
`Scan_Uninitialize`, `Scan_CreateInstance`, `Scan_DestroyInstance`), of the
per-session calls (`Scan_SetOption`, `Scan_GetOption`, `Scan_SetScanCallback`),
of the scan dispatch (`Scan_ScanObject`, `Scan_ScanObjectByHandle`,
`Scan_DeleteScanInfo`) and of `cli_pst` from `libclamav/pst.c`.

Conventions of the embedding
* pointers are natural numbers and `0` is `NULL`;
* `unsigned int` arithmetic is arithmetic on `Nat` reduced modulo `2^32`;
* every call receives the outcomes of the operations it delegates to the
  platform or to libclamav (`WaitForSingleObject`, `calloc`, `cl_engine_new`,
  `WideCharToMultiByte`, `cl_load`, `cl_engine_compile`) in an `Externals`
  record (`ScanExternals` for the scan calls), so that a theorem quantified
  over the record covers every outcome;
* an output parameter `T *p` is a pair of an argument (the old `*p`) and a
  component of the result (the new `*p`);
* `logg` only writes to the log file and is left out.
-/

set_option linter.unusedVariables false
set_option linter.unnecessarySeqFocus false

namespace ClamWin

/-- Modelled from the spec: the two status codes `CLAMAPI_SUCCESS` and
`CLAMAPI_FAILURE` of `clscanapi.h`, a header that is not part of the sources;
the spec's return convention has exactly the two distinct values `Success` and
`Failure`. `WIN()` returns the first and `FAIL(...)` the second. -/
inductive ClamApi where
  | CLAMAPI_SUCCESS
  | CLAMAPI_FAILURE
  deriving DecidableEq, Repr

open ClamApi

/-- Number of values of an `unsigned int`. -/
def UINT_RANGE : Nat := 4294967296

/-- The file-scope variables `engine`, `engine_refcnt` and `engine_event`
(its signalled state), with the two resources the lifecycle calls acquire and
give back: the arguments `cl_engine_free` has received so far (latest first) and
the blocks obtained from `calloc` that have not been passed to `free`. -/
structure Globals where
  engine : Nat
  engine_refcnt : Nat
  engine_event : Bool
  engines_freed : List Nat
  heap : List Nat
  deriving DecidableEq, Repr

/-- Outcomes of the external operations one API call performs. -/
structure Externals where
  /-- Whether `WaitForSingleObject(engine_mutex, INFINITE) == WAIT_FAILED`. -/
  WAIT_FAILED : Bool
  /-- Pointer returned by `cl_engine_new()`. -/
  cl_engine_new : Nat
  /-- From `pEnginesFolder`: the return value, `cant_convert` and `dbdir`. -/
  WideCharToMultiByte : List Nat → Nat × Bool × List Nat
  /-- Return value of `cl_load(dbdir, engine, NULL, CL_DB_STDOPT)`. -/
  cl_load : List Nat → Nat → Int
  /-- Return value of `cl_engine_compile(engine)`. -/
  cl_engine_compile : Nat → Int
  /-- Pointer returned by `calloc(1, sizeof(*inst))`. -/
  calloc : Nat

/-- Values at program start: `engine = NULL`, the zero-initialised
`engine_refcnt`, no event yet. -/
def static_init : Globals :=
  { engine := 0, engine_refcnt := 0, engine_event := false, engines_freed := [], heap := [] }

/-- The call `interface_setup`: the event is created manual-reset with initial state
`TRUE` (signalled), after `cl_init` and `CreateMutex` succeeded. -/
def interface_setup (cl_init_ret : Int) (CreateMutex CreateEvent : Nat) (s : Globals) :
    Bool × Globals :=
  if cl_init_ret ≠ 0 then (false, s)
  else if CreateMutex = 0 then (false, s)
  else if CreateEvent = 0 then (false, s)
  else (true, { s with engine_event := true })

/-- The macro `lock_engine()`: true when taking the mutex failed. -/
def lock_engine (x : Externals) : Bool := x.WAIT_FAILED

/-- The libc `free` on the live blocks: `free(NULL)` does nothing, a live block
is removed. A pointer that is not a live block leaves the list as it is (in C
that call is undefined); the theorems below that free a block state that it is
live. -/
def free (p : Nat) (heap : List Nat) : List Nat :=
  if p = 0 then heap else heap.erase p

/-- The helper `free_engine_and_unlock`: `cl_engine_free(engine); engine = NULL;`. -/
def free_engine_and_unlock (s : Globals) : Globals :=
  { s with engines_freed := s.engine :: s.engines_freed, engine := 0 }

/-- The call `Scan_Initialize`. `CL_SUCCESS` is a constant of `clamav.h`. -/
def Scan_Initialize (CL_SUCCESS : Int) (x : Externals)
    (pEnginesFolder pLicenseKey : List Nat) (s : Globals) : ClamApi × Globals :=
  if lock_engine x then (CLAMAPI_FAILURE, s)
  else if s.engine ≠ 0 then (CLAMAPI_FAILURE, s)
  else
    let s1 : Globals := { s with engine := x.cl_engine_new }
    if s1.engine = 0 then (CLAMAPI_FAILURE, s1)
    else
      let conv := x.WideCharToMultiByte pEnginesFolder
      if conv.1 = 0 || conv.2.1 then (CLAMAPI_FAILURE, free_engine_and_unlock s1)
      else if x.cl_load conv.2.2 s1.engine ≠ CL_SUCCESS then
        (CLAMAPI_FAILURE, free_engine_and_unlock s1)
      else if x.cl_engine_compile s1.engine ≠ 0 then
        (CLAMAPI_FAILURE, free_engine_and_unlock s1)
      else (CLAMAPI_SUCCESS, { s1 with engine_refcnt := 0 })

/-- The call `Scan_Uninitialize`. -/
def Scan_Uninitialize (x : Externals) (s : Globals) : ClamApi × Globals :=
  if lock_engine x then (CLAMAPI_FAILURE, s)
  else if s.engine = 0 then (CLAMAPI_FAILURE, s)
  else if s.engine_refcnt ≠ 0 then (CLAMAPI_FAILURE, s)
  else (CLAMAPI_SUCCESS, free_engine_and_unlock s)

/-- The call `Scan_CreateInstance`; `ppScanner` is the old `*ppScanner`, the middle
component of the result the new one. -/
def Scan_CreateInstance (x : Externals) (ppScanner : Nat) (s : Globals) :
    ClamApi × Nat × Globals :=
  let inst := x.calloc
  if inst = 0 then (CLAMAPI_FAILURE, ppScanner, s)
  else
    let s1 : Globals := { s with heap := inst :: s.heap }
    if lock_engine x then (CLAMAPI_FAILURE, ppScanner, { s1 with heap := free inst s1.heap })
    else if s1.engine = 0 then
      (CLAMAPI_FAILURE, ppScanner, { s1 with heap := free inst s1.heap })
    else
      (CLAMAPI_SUCCESS, inst,
        { s1 with engine_refcnt := (s1.engine_refcnt + 1) % UINT_RANGE, engine_event := false })

/-- The call `Scan_DestroyInstance`. -/
def Scan_DestroyInstance (x : Externals) (pScanner : Nat) (s : Globals) : ClamApi × Globals :=
  let s1 : Globals := { s with heap := free pScanner s.heap }
  if lock_engine x then (CLAMAPI_FAILURE, s1)
  else if s1.engine = 0 then (CLAMAPI_FAILURE, s1)
  else
    let s2 : Globals :=
      { s1 with engine_refcnt := (s1.engine_refcnt + (UINT_RANGE - 1)) % UINT_RANGE }
    if s2.engine_refcnt = 0 then (CLAMAPI_SUCCESS, { s2 with engine_event := true })
    else (CLAMAPI_SUCCESS, s2)

/-- The struct `instance` behind a `CClamAVScanner *`. -/
structure Instance where
  scancb : Nat
  scancb_ctx : Nat
  callback2 : Nat
  scanmode : Int
  deriving DecidableEq, Repr

/-- The value of `sizeof(int)` on the Windows targets of this interface. -/
def sizeof_int : Nat := 4

/-- The call `Scan_SetOption`. `value` is the `int` that `memcpy` reads from the caller's
buffer; the three constants are those of `clscanapi.h`. -/
def Scan_SetOption (CLAM_OPTION_SCAN_MODE CLAM_SCAN_FULL CLAM_SCAN_LIGHT : Int)
    (inst : Instance) (option : Int) (value : Int) (inputLength : Nat) : ClamApi × Instance :=
  if option = CLAM_OPTION_SCAN_MODE then
    if inputLength ≠ sizeof_int then (CLAMAPI_FAILURE, inst)
    else
      let newmode := value
      if newmode ≠ CLAM_SCAN_FULL ∧ newmode ≠ CLAM_SCAN_LIGHT then (CLAMAPI_FAILURE, inst)
      else (CLAMAPI_SUCCESS, { inst with scanmode := newmode })
  else (CLAMAPI_FAILURE, inst)

/-- The call `Scan_GetOption`; `value` and `outLength` are the old contents of the two
output buffers, the result carries the new ones. -/
def Scan_GetOption (CLAM_OPTION_SCAN_MODE : Int) (inst : Instance) (option : Int)
    (value : Int) (inputLength : Nat) (outLength : Nat) : ClamApi × Int × Nat :=
  if option = CLAM_OPTION_SCAN_MODE then
    let outLength1 := sizeof_int
    if inputLength < sizeof_int then (CLAMAPI_FAILURE, value, outLength1)
    else (CLAMAPI_SUCCESS, inst.scanmode, outLength1)
  else (CLAMAPI_FAILURE, value, outLength)

/-- One lifecycle call with its arguments and the outcomes of its external
operations. -/
inductive Call where
  | init (x : Externals) (pEnginesFolder pLicenseKey : List Nat)
  | uninit (x : Externals)
  | create (x : Externals) (ppScanner : Nat)
  | destroy (x : Externals) (pScanner : Nat)

/-- Status and next state of one lifecycle call. -/
def Call.exec (CL_SUCCESS : Int) (s : Globals) : Call → ClamApi × Globals
  | .init x d k => Scan_Initialize CL_SUCCESS x d k s
  | .uninit x => Scan_Uninitialize x s
  | .create x pp => ((Scan_CreateInstance x pp s).1, (Scan_CreateInstance x pp s).2.2)
  | .destroy x p => Scan_DestroyInstance x p s

/-- State after a sequence of lifecycle calls. -/
def run (CL_SUCCESS : Int) (s : Globals) : List Call → Globals
  | [] => s
  | c :: cs => run CL_SUCCESS (c.exec CL_SUCCESS s).2 cs

/-- Externals under which nothing fails: the lock is taken, `calloc` and
`cl_engine_new` return the given pointers, the folder converts, and load and
compile return `CL_SUCCESS` and `0`. -/
def Externals.ok (CL_SUCCESS : Int) (newEngine newBlock : Nat) : Externals :=
  { WAIT_FAILED := false
    cl_engine_new := newEngine
    WideCharToMultiByte := fun w => (w.length + 1, false, w)
    cl_load := fun _ _ => CL_SUCCESS
    cl_engine_compile := fun _ => 0
    calloc := newBlock }

/-- Externals whose lock acquisition fails. -/
def Externals.lockFails (newBlock : Nat) : Externals :=
  { WAIT_FAILED := true
    cl_engine_new := 0
    WideCharToMultiByte := fun _ => (0, false, [])
    cl_load := fun _ _ => 0
    cl_engine_compile := fun _ => 0
    calloc := newBlock }

/-- Whether the call, made in state `s`, reaches `engine_refcnt++` with the
counter at its largest value or `--engine_refcnt` with the counter at zero, the
two places where the `unsigned int` wraps around. -/
def Call.wraps (s : Globals) : Call → Bool
  | .create x _ =>
      decide (x.calloc ≠ 0) && !lock_engine x && decide (s.engine ≠ 0) &&
        decide (UINT_RANGE ≤ s.engine_refcnt + 1)
  | .destroy x _ => !lock_engine x && decide (s.engine ≠ 0) && decide (s.engine_refcnt = 0)
  | _ => false

/-- Whether no call of the sequence, made from `s`, wraps the counter. -/
def noWrap (CL_SUCCESS : Int) (s : Globals) : List Call → Bool
  | [] => true
  | c :: cs => !c.wraps s && noWrap CL_SUCCESS (c.exec CL_SUCCESS s).2 cs

/-- Whether the call is a `Scan_CreateInstance`. -/
def Call.isCreate : Call → Bool
  | .create _ _ => true
  | _ => false

/-- Whether the call is a `Scan_DestroyInstance`. -/
def Call.isDestroy : Call → Bool
  | .destroy _ _ => true
  | _ => false

/-- Whether the sequence, made from `s`, consists of `Scan_CreateInstance` and
`Scan_DestroyInstance` calls that all return success, every destroy being
applied to a block that is live at that point: a session that a create of the
sequence (or an earlier one) returned and that has not been destroyed since. -/
def pairedCalls (CL_SUCCESS : Int) (s : Globals) : List Call → Bool
  | [] => true
  | .create x pp :: cs =>
      decide ((Scan_CreateInstance x pp s).1 = CLAMAPI_SUCCESS) &&
        pairedCalls CL_SUCCESS (Scan_CreateInstance x pp s).2.2 cs
  | .destroy x p :: cs =>
      decide (p ∈ s.heap) && decide ((Scan_DestroyInstance x p s).1 = CLAMAPI_SUCCESS) &&
        pairedCalls CL_SUCCESS (Scan_DestroyInstance x p s).2 cs
  | _ :: _ => false

/-- The relation between the drain signal, the counter and the engine handle
that the lifecycle calls maintain as long as the counter does not wrap. -/
def DrainInv (s : Globals) : Prop :=
  s.engine_refcnt < UINT_RANGE ∧ (s.engine_event = true ↔ s.engine_refcnt = 0) ∧
    (s.engine = 0 → s.engine_refcnt = 0)

/-- The relation between the counter, the live session blocks, the engine
handle and the drain signal along successful create and destroy calls on live
sessions: an engine exists, no live block is `NULL`, the counter is the number
of live blocks as an `unsigned int`, and the event is signalled when no block is
live. -/
def PairedInv (s : Globals) : Prop :=
  s.engine ≠ 0 ∧ 0 ∉ s.heap ∧ s.engine_refcnt = s.heap.length % UINT_RANGE ∧
    (s.heap = [] → s.engine_event = true)

/-! ### Scan dispatch, result container and the PST stub -/

/-- The macro `MAX_VIRNAME_LEN`. -/
def MAX_VIRNAME_LEN : Nat := 1024

/-- The value of `sizeof(wchar_t)` on Windows. -/
def sizeof_wchar_t : Nat := 2

/-- The Windows constant `INVALID_HANDLE_VALUE`, the handle `-1`. -/
def INVALID_HANDLE_VALUE : Int := -1

/-- Constants and type sizes of `clamav.h` and `clscanapi.h`, headers that are
not part of the sources; the functions below take them as a parameter. -/
structure Headers where
  CLAMAPI_OBJECT_TYPE_FILE : Int
  CLAM_OPTION_SCAN_MODE : Int
  CLAM_SCAN_FULL : Int
  CLAM_SCAN_LIGHT : Int
  CL_CLEAN : Int
  CL_VIRUS : Int
  CL_SCAN_STDOPT : Int
  CL_SCAN_ARCHIVE : Int
  CL_SCAN_MAIL : Int
  CL_SCAN_ELF : Int
  sizeof_CLAM_SCAN_INFO_LIST : Nat
  sizeof_CLAM_SCAN_INFO : Nat

/-- What a `wchar_t *` field of a result entry points to: nothing, the name
buffer that follows the entry in the same block, or a string literal. -/
inductive WidePtr where
  | null
  | wvirname
  | literal (text : String)
  deriving DecidableEq, Repr

/-- The fields of `CLAM_SCAN_INFO` that `Scan_ScanObjectByHandle` writes. -/
structure CLAM_SCAN_INFO where
  cbSize : Nat
  objectType : Int
  pObjectPath : WidePtr
  scanStatus : Int
  pThreatName : WidePtr
  deriving DecidableEq, Repr

/-- Contents of the block `*pInfoList`: the `cbCount` of the list header, the
entry `scaninfo` behind the header, the wide characters stored from the
address `wvirname` behind the entry on, and `capacity`, the number of bytes
the allocation has from that address to its end. Characters beyond the
capacity were stored outside the block. -/
structure InfoBlock where
  cbCount : Int
  scaninfo : CLAM_SCAN_INFO
  wvirname : List Nat
  capacity : Nat
  deriving DecidableEq, Repr

/-- A result container as `calloc` returns it: all zero, with the
`MAX_VIRNAME_LEN` bytes of the allocation behind the entry. -/
def InfoBlock.zeroed : InfoBlock :=
  { cbCount := 0
    scaninfo := { cbSize := 0, objectType := 0, pObjectPath := WidePtr.null, scanStatus := 0,
                  pThreatName := WidePtr.null }
    wvirname := []
    capacity := 1024 }

/-- Size passed to `calloc` for the result container. -/
def info_alloc_size (H : Headers) : Nat :=
  H.sizeof_CLAM_SCAN_INFO_LIST + H.sizeof_CLAM_SCAN_INFO + MAX_VIRNAME_LEN

/-- Byte offset of `wvirname = (wchar_t *)(scaninfo + 1)` in the block, with
`scaninfo = (PCLAM_SCAN_INFO)(*pInfoList + 1)`. -/
def wvirname_offset (H : Headers) : Nat :=
  H.sizeof_CLAM_SCAN_INFO_LIST + H.sizeof_CLAM_SCAN_INFO

/-- Bytes of the block from `wvirname` to its end. -/
def wvirname_capacity (H : Headers) : Nat := info_alloc_size H - wvirname_offset H

/-- Bytes taken by the wide characters stored in the name buffer. -/
def InfoBlock.wvirname_bytes (b : InfoBlock) : Nat := sizeof_wchar_t * b.wvirname.length

/-- Bytes stored past the end of the block. -/
def InfoBlock.overrun (b : InfoBlock) : Nat := b.wvirname_bytes - b.capacity

/-- The wide text a literal stands for, terminator included. -/
def literalText (text : String) : List Nat := text.toList.map Char.toNat ++ [0]

/-- The threat name the entry of the block refers to: the text of a literal,
or the characters stored in the name buffer when they lie inside the block;
none for a null pointer and for a name that runs past the end of the block. -/
def InfoBlock.threatName (b : InfoBlock) : Option (List Nat) :=
  match b.scaninfo.pThreatName with
  | WidePtr.null => none
  | WidePtr.literal text => some (literalText text)
  | WidePtr.wvirname => if b.wvirname_bytes ≤ b.capacity then some b.wvirname else none

/-- Outcomes of the external operations of one scan call. -/
structure ScanExternals where
  /-- Handle returned by `CreateFileW` for the path. -/
  CreateFileW : List Nat → Int
  /-- Pointer returned by `calloc` for the result container. -/
  calloc : Nat
  /-- From the caller's handle: the `BOOL` returned and `duphdl`. -/
  DuplicateHandle : Int → Bool × Int
  /-- Descriptor returned by `_open_osfhandle(duphdl, _O_RDONLY)`. -/
  open_osfhandle : Int → Int
  /-- From descriptor, engine and options: the return value and `virname`. -/
  cl_scandesc : Int → Nat → Int → Int × List Nat
  /-- From `virname` and the character count given as buffer size: the return
  value and the wide characters written to the buffer. -/
  MultiByteToWideChar : List Nat → Nat → Nat × List Nat

/-- The macro `CLAM_LIGHT_OPTS`. -/
def CLAM_LIGHT_OPTS (H : Headers) : Int :=
  Int.land H.CL_SCAN_STDOPT
    (Int.lnot (Int.lor (Int.lor H.CL_SCAN_ARCHIVE H.CL_SCAN_MAIL) H.CL_SCAN_ELF))

/-- The last argument of the `cl_scandesc` call in `Scan_ScanObjectByHandle`. -/
def scan_options (H : Headers) (inst : Instance) : Int :=
  if inst.scanmode = H.CLAM_SCAN_FULL then H.CL_SCAN_STDOPT else CLAM_LIGHT_OPTS H

/-- What a scan call leaves behind: the status returned, the new `*pScanStatus`
and `*pInfoList`, the contents of the block allocated by the call while it is
live, the options of the `cl_scandesc` invocation if there was one, and the
globals. -/
structure ScanOutcome where
  ret : ClamApi
  pScanStatus : Int
  pInfoList : Nat
  block : Option InfoBlock
  scanned : Option Int
  globals : Globals
  deriving DecidableEq, Repr

/-- The call `Scan_ScanObjectByHandle`. `pObject` is the handle `*(HANDLE *)pObject`;
`pScanStatus` and `pInfoList` are the old contents of the two outputs. -/
def Scan_ScanObjectByHandle (H : Headers) (x : ScanExternals) (inst : Instance)
    (pObject : Int) (objectType action impersonatePID : Int) (pScanStatus : Int)
    (pInfoList : Nat) (s : Globals) : ScanOutcome :=
  if objectType ≠ H.CLAMAPI_OBJECT_TYPE_FILE then
    { ret := CLAMAPI_FAILURE, pScanStatus := pScanStatus, pInfoList := pInfoList,
      block := none, scanned := none, globals := s }
  else
    let pInfoList1 := x.calloc
    if pInfoList1 = 0 then
      { ret := CLAMAPI_FAILURE, pScanStatus := pScanStatus, pInfoList := pInfoList1,
        block := none, scanned := none, globals := s }
    else
      let s1 : Globals := { s with heap := pInfoList1 :: s.heap }
      let fresh : InfoBlock := { InfoBlock.zeroed with capacity := wvirname_capacity H }
      let dup := x.DuplicateHandle pObject
      if dup.1 = false then
        { ret := CLAMAPI_FAILURE, pScanStatus := pScanStatus, pInfoList := pInfoList1,
          block := none, scanned := none,
          globals := { s1 with heap := free pInfoList1 s1.heap } }
      else
        let fd := x.open_osfhandle dup.2
        if fd = -1 then
          { ret := CLAMAPI_FAILURE, pScanStatus := pScanStatus, pInfoList := pInfoList1,
            block := none, scanned := none,
            globals := { s1 with heap := free pInfoList1 s1.heap } }
        else
          let scan := x.cl_scandesc fd s1.engine (scan_options H inst)
          let res := scan.1
          let virname := scan.2
          if res = H.CL_VIRUS then
            let conv := x.MultiByteToWideChar virname MAX_VIRNAME_LEN
            let scaninfo : CLAM_SCAN_INFO :=
              { cbSize := H.sizeof_CLAM_SCAN_INFO
                objectType := objectType
                pObjectPath := WidePtr.literal "FIXME"
                scanStatus := 3
                pThreatName :=
                  if conv.1 = 0 then WidePtr.literal "INFECTED" else WidePtr.wvirname }
            { ret := CLAMAPI_SUCCESS, pScanStatus := pScanStatus, pInfoList := pInfoList1,
              block := some { fresh with cbCount := 1, scaninfo := scaninfo, wvirname := conv.2 },
              scanned := some (scan_options H inst), globals := s1 }
          else
            { ret := CLAMAPI_SUCCESS, pScanStatus := pScanStatus, pInfoList := pInfoList1,
              block := some fresh, scanned := some (scan_options H inst),
              globals := s1 }

/-- The call `Scan_ScanObject`. -/
def Scan_ScanObject (H : Headers) (x : ScanExternals) (inst : Instance)
    (pObjectPath : List Nat) (objectType action impersonatePID : Int) (pScanStatus : Int)
    (pInfoList : Nat) (s : Globals) : ScanOutcome :=
  if objectType ≠ H.CLAMAPI_OBJECT_TYPE_FILE then
    { ret := CLAMAPI_FAILURE, pScanStatus := pScanStatus, pInfoList := pInfoList,
      block := none, scanned := none, globals := s }
  else
    let fhdl := x.CreateFileW pObjectPath
    if fhdl = INVALID_HANDLE_VALUE then
      { ret := CLAMAPI_FAILURE, pScanStatus := pScanStatus, pInfoList := pInfoList,
        block := none, scanned := none, globals := s }
    else
      Scan_ScanObjectByHandle H x inst fhdl objectType action impersonatePID pScanStatus
        pInfoList s

/-- The call `Scan_SetScanCallback`. -/
def Scan_SetScanCallback (inst : Instance) (pfnCallback pContext : Nat) : ClamApi × Instance :=
  (CLAMAPI_SUCCESS, { inst with scancb := pfnCallback, scancb_ctx := pContext })

/-- The call `Scan_DeleteScanInfo`. -/
def Scan_DeleteScanInfo (pScanner : Nat) (pInfoList : Nat) (s : Globals) : ClamApi × Globals :=
  (CLAMAPI_SUCCESS, { s with heap := free pInfoList s.heap })

/-- The function `cli_pst` of `libclamav/pst.c`; `dir` is `none` for a null
pointer, `CL_EFORMAT` is a constant of `clamav.h`. The warning goes to the log. -/
def cli_pst (CL_EFORMAT : Int) (dir : Option (List Nat)) (desc : Int) : Int :=
  CL_EFORMAT

/-- The globals together with the contents of the instance blocks, by address. -/
structure World where
  globals : Globals
  sessions : Nat → Instance

/-- One of the six calls of the interface that are not lifecycle calls, with its
arguments and the outcomes of its external operations. -/
inductive SessionCall where
  | setScanCallback (pScanner pfnCallback pContext : Nat)
  | setOption (pScanner : Nat) (option value : Int) (inputLength : Nat)
  | getOption (pScanner : Nat) (option value : Int) (inputLength outLength : Nat)
  | scanObject (x : ScanExternals) (pScanner : Nat) (pObjectPath : List Nat)
      (objectType action impersonatePID pScanStatus : Int) (pInfoList : Nat)
  | scanObjectByHandle (x : ScanExternals) (pScanner : Nat) (pObject : Int)
      (objectType action impersonatePID pScanStatus : Int) (pInfoList : Nat)
  | deleteScanInfo (pScanner pInfoList : Nat)

/-- Whether the call is one of the two scan operations. -/
def SessionCall.isScan : SessionCall → Bool
  | .scanObject _ _ _ _ _ _ _ _ => true
  | .scanObjectByHandle _ _ _ _ _ _ _ _ => true
  | _ => false

/-- Status and next state of a call on the session `pScanner` points to: the
call reads `(instance *)pScanner` from the store and what it assigns through
that pointer is written back. -/
def SessionCall.exec (H : Headers) (w : World) : SessionCall → ClamApi × World
  | .setScanCallback p cb ctx =>
      ((Scan_SetScanCallback (w.sessions p) cb ctx).1,
        { w with sessions :=
            Function.update w.sessions p (Scan_SetScanCallback (w.sessions p) cb ctx).2 })
  | .setOption p o v len =>
      ((Scan_SetOption H.CLAM_OPTION_SCAN_MODE H.CLAM_SCAN_FULL H.CLAM_SCAN_LIGHT
          (w.sessions p) o v len).1,
        { w with sessions :=
            (Function.update w.sessions p
              (Scan_SetOption H.CLAM_OPTION_SCAN_MODE H.CLAM_SCAN_FULL H.CLAM_SCAN_LIGHT
                (w.sessions p) o v len).2) })
  | .getOption p o v len out =>
      ((Scan_GetOption H.CLAM_OPTION_SCAN_MODE (w.sessions p) o v len out).1, w)
  | .scanObject x p path ty act pid st il =>
      ((Scan_ScanObject H x (w.sessions p) path ty act pid st il w.globals).ret,
        { w with globals :=
            (Scan_ScanObject H x (w.sessions p) path ty act pid st il w.globals).globals })
  | .scanObjectByHandle x p obj ty act pid st il =>
      ((Scan_ScanObjectByHandle H x (w.sessions p) obj ty act pid st il w.globals).ret,
        { w with globals :=
            (Scan_ScanObjectByHandle H x (w.sessions p) obj ty act pid st il w.globals).globals })
  | .deleteScanInfo p il =>
      ((Scan_DeleteScanInfo p il w.globals).1,
        { w with globals := (Scan_DeleteScanInfo p il w.globals).2 })

/-- The relation between the engine handle and the counter that every lifecycle
call maintains: without an engine the counter is zero. -/
def EngineInv (s : Globals) : Prop := s.engine = 0 → s.engine_refcnt = 0

/-- Headers with the values used in the examples: object kind file `0`, option
`1`, modes full `0` and light `1`, clean `0`, virus `1`, default options
`0x211f` with archive `0x1`, mail `0x2` and ELF `0x2000`, a list header of 8 and
an entry of 20 bytes. -/
def Headers.sample : Headers :=
  { CLAMAPI_OBJECT_TYPE_FILE := 0, CLAM_OPTION_SCAN_MODE := 1, CLAM_SCAN_FULL := 0,
    CLAM_SCAN_LIGHT := 1, CL_CLEAN := 0, CL_VIRUS := 1, CL_SCAN_STDOPT := 8479,
    CL_SCAN_ARCHIVE := 1, CL_SCAN_MAIL := 2, CL_SCAN_ELF := 8192,
    sizeof_CLAM_SCAN_INFO_LIST := 8, sizeof_CLAM_SCAN_INFO := 20 }

/-- A conversion that behaves like `MultiByteToWideChar` with `cbMultiByte = -1`
on a single-byte code page: one wide character per byte plus the terminator,
or failure (return value `0`) when the given character count is too small. -/
def widenSingleByte (virname : List Nat) (cchWideChar : Nat) : Nat × List Nat :=
  if virname.length + 1 ≤ cchWideChar then (virname.length + 1, virname ++ [0]) else (0, [])

/-- Scan externals under which nothing fails: file handle `5`, the given block,
duplicate handle `6`, descriptor `3`, and an engine that returns `res` with the
name `virname`. -/
def ScanExternals.ok (newBlock : Nat) (res : Int) (virname : List Nat) : ScanExternals :=
  { CreateFileW := fun _ => 5
    calloc := newBlock
    DuplicateHandle := fun _ => (true, 6)
    open_osfhandle := fun _ => 3
    cl_scandesc := fun _ _ _ => (res, virname)
    MultiByteToWideChar := widenSingleByte }

/-- A session in the given mode with no callback. -/
def Instance.inMode (mode : Int) : Instance :=
  { scancb := 0, scancb_ctx := 0, callback2 := 0, scanmode := mode }

/-- Globals of an initialised manager: engine `7`, one live session block `40`. -/
def Globals.sample : Globals :=
  { engine := 7, engine_refcnt := 1, engine_event := false, engines_freed := [], heap := [40] }

/-! ## Scan_Uninitialize and Scan_Initialize on an existing engine -/

/-- C1: with the lock acquired, an engine present and a nonzero session counter,
`Scan_Uninitialize` returns failure and changes nothing (the engine handle stays
the same non-null pointer, the counter and the drain signal keep their values);
and whatever the outcome of the lock, `Scan_Uninitialize` calls `cl_engine_free`
or clears the engine handle only in a state whose counter is zero. -/
theorem C1_uninitialize_busy (x : Externals) (s : Globals) :
    (x.WAIT_FAILED = false → s.engine ≠ 0 → s.engine_refcnt ≠ 0 →
      ( Scan_Uninitialize x s).1 = CLAMAPI_FAILURE ∧
      ( Scan_Uninitialize x s).2.engine = s.engine ∧
      ( Scan_Uninitialize x s).2.engine ≠ 0 ∧
      ( Scan_Uninitialize x s).2.engine_refcnt = s.engine_refcnt ∧
      ( Scan_Uninitialize x s).2.engine_event = s.engine_event ∧
      ( Scan_Uninitialize x s).2 = s) ∧
    ((( Scan_Uninitialize x s).2.engines_freed ≠ s.engines_freed ∨
        ( Scan_Uninitialize x s).2.engine ≠ s.engine) → s.engine_refcnt = 0) := by
  constructor
  · intro hl he hr
    simp [ Scan_Uninitialize, lock_engine, hl, he, hr]
  · intro h
    by_contra hr
    have : ( Scan_Uninitialize x s).2 = s := by
      unfold Scan_Uninitialize
      split_ifs <;> simp_all
    rw [this] at h
    simp at h

/-- C1 witness: one live session on engine `7`. -/
theorem C1_uninitialize_busy_witness :
    ( Scan_Uninitialize (Externals.ok 0 0 0)
        { engine := 7, engine_refcnt := 1, engine_event := false,
          engines_freed := [], heap := [40] }).1 = CLAMAPI_FAILURE ∧
    ( Scan_Uninitialize (Externals.ok 0 0 0)
        { engine := 7, engine_refcnt := 1, engine_event := false,
          engines_freed := [], heap := [40] }).2.engine = 7 :=
  have h := (C1_uninitialize_busy (Externals.ok 0 0 0)
    { engine := 7, engine_refcnt := 1, engine_event := false,
      engines_freed := [], heap := [40] }).1 rfl (by decide) (by decide)
  ⟨h.1, h.2.1⟩

/-- C2: when an engine already exists, `Scan_Initialize` returns failure for
every folder, licence key and outcome of the external operations, and leaves
the whole state as it was: the same engine handle, the same counter (not reset
to zero), the same drain signal, and no engine created or released. -/
theorem C2_initialize_twice (CL_SUCCESS : Int) (x : Externals)
    (pEnginesFolder pLicenseKey : List Nat) (s : Globals) (he : s.engine ≠ 0) :
    (Scan_Initialize CL_SUCCESS x pEnginesFolder pLicenseKey s).1 = CLAMAPI_FAILURE ∧
    (Scan_Initialize CL_SUCCESS x pEnginesFolder pLicenseKey s).2.engine = s.engine ∧
    (Scan_Initialize CL_SUCCESS x pEnginesFolder pLicenseKey s).2.engine_refcnt
      = s.engine_refcnt ∧
    (Scan_Initialize CL_SUCCESS x pEnginesFolder pLicenseKey s).2.engine_event
      = s.engine_event ∧
    (Scan_Initialize CL_SUCCESS x pEnginesFolder pLicenseKey s).2 = s := by
  unfold Scan_Initialize
  by_cases hl : lock_engine x = true <;> simp [hl, he]

/-- C2 witness: a second initialisation while two sessions are live. -/
theorem C2_initialize_twice_witness :
    (Scan_Initialize 0 (Externals.ok 0 9 0) [67, 58] []
        { engine := 7, engine_refcnt := 2, engine_event := false,
          engines_freed := [], heap := [40, 48] }).2.engine_refcnt = 2 :=
  (C2_initialize_twice 0 (Externals.ok 0 9 0) [67, 58] []
    { engine := 7, engine_refcnt := 2, engine_event := false,
      engines_freed := [], heap := [40, 48] } (by decide)).2.2.1

/-! ## Scan_Uninitialize at counter zero, Scan_CreateInstance without an engine -/

/-- C6: with the lock acquired, an engine present and a session counter of zero,
`Scan_Uninitialize` returns success, passes the engine to `cl_engine_free`
(once) and leaves the engine handle null; a `Scan_CreateInstance` that follows
immediately returns failure, whatever its external outcomes. -/
theorem C6_uninitialize_idle (x : Externals) (s : Globals)
    (hl : x.WAIT_FAILED = false) (he : s.engine ≠ 0) (hr : s.engine_refcnt = 0) :
    ( Scan_Uninitialize x s).1 = CLAMAPI_SUCCESS ∧
    ( Scan_Uninitialize x s).2.engine = 0 ∧
    ( Scan_Uninitialize x s).2.engines_freed = s.engine :: s.engines_freed ∧
    ∀ (y : Externals) (ppScanner : Nat),
      (Scan_CreateInstance y ppScanner ( Scan_Uninitialize x s).2).1 = CLAMAPI_FAILURE := by
  have hu : Scan_Uninitialize x s = (CLAMAPI_SUCCESS, free_engine_and_unlock s) := by
    simp [ Scan_Uninitialize, lock_engine, hl, he, hr]
  rw [hu]
  refine ⟨rfl, rfl, rfl, ?_⟩
  intro y pp
  unfold Scan_CreateInstance
  by_cases hc : y.calloc = 0
  · simp [hc]
  · by_cases hw : lock_engine y = true <;> simp [hc, hw, free_engine_and_unlock]

/-- C6 witness: engine `7` with no session. -/
theorem C6_uninitialize_idle_witness :
    ( Scan_Uninitialize (Externals.ok 0 0 0)
        { engine := 7, engine_refcnt := 0, engine_event := true,
          engines_freed := [], heap := [] }).2.engines_freed = [7] :=
  (C6_uninitialize_idle (Externals.ok 0 0 0)
    { engine := 7, engine_refcnt := 0, engine_event := true,
      engines_freed := [], heap := [] } rfl (by decide) rfl).2.2.1

/-- C7: when the engine handle is null, `Scan_CreateInstance` returns failure,
leaves `*ppScanner` as it was and leaves the counter, the drain signal and in
fact the whole state unchanged (the block it allocated is freed again); the
engine handle is null in the state `interface_setup` establishes at program
start and after every successful `Scan_Uninitialize`. -/
theorem C7_create_without_engine (x : Externals) (ppScanner : Nat) (s : Globals) :
    (s.engine = 0 →
      (Scan_CreateInstance x ppScanner s).1 = CLAMAPI_FAILURE ∧
      (Scan_CreateInstance x ppScanner s).2.1 = ppScanner ∧
      (Scan_CreateInstance x ppScanner s).2.2.engine_refcnt = s.engine_refcnt ∧
      (Scan_CreateInstance x ppScanner s).2.2.engine_event = s.engine_event ∧
      (Scan_CreateInstance x ppScanner s).2.2 = s) ∧
    (∀ (r : Int) (m e : Nat), (interface_setup r m e static_init).2.engine = 0) ∧
    (( Scan_Uninitialize x s).1 = CLAMAPI_SUCCESS → ( Scan_Uninitialize x s).2.engine = 0) := by
  refine ⟨?_, ?_, ?_⟩
  · intro he
    obtain ⟨e, r, ev, fr, hp⟩ := s
    simp only at he
    subst he
    unfold Scan_CreateInstance
    by_cases hc : x.calloc = 0
    · simp [hc]
    · by_cases hw : lock_engine x = true <;> simp [hc, hw, free]
  · intro r m e
    unfold interface_setup
    split_ifs <;> rfl
  · unfold Scan_Uninitialize
    split_ifs <;> simp [free_engine_and_unlock]

/-- C7 witness: a create call right after `interface_setup`. -/
theorem C7_create_without_engine_witness :
    (Scan_CreateInstance (Externals.ok 0 0 40) 99 (interface_setup 0 1 1 static_init).2).1
        = CLAMAPI_FAILURE ∧
    (Scan_CreateInstance (Externals.ok 0 0 40) 99 (interface_setup 0 1 1 static_init).2).2.1
        = 99 :=
  have h := (C7_create_without_engine (Externals.ok 0 0 40) 99
    (interface_setup 0 1 1 static_init).2).1 (by decide)
  ⟨h.1, h.2.1⟩

/-! ## Scan_Initialize without an engine -/

/-- C8 (as stated, refuted): it is not the case that every successful
`Scan_Initialize` from a state without an engine leaves the drain signal set.
From the state with a null engine, counter `3` and the event reset, a call in
which every external operation succeeds returns success with the event still
reset: `Scan_Initialize` assigns `engine_refcnt = 0` but never calls
`SetEvent`. -/
theorem C8_initialize_success_counterexample :
    ¬ (∀ (CL_SUCCESS : Int) (x : Externals) (pEnginesFolder pLicenseKey : List Nat)
        (s : Globals),
        s.engine = 0 → x.WAIT_FAILED = false → x.cl_engine_new ≠ 0 →
        (x.WideCharToMultiByte pEnginesFolder).1 ≠ 0 →
        (x.WideCharToMultiByte pEnginesFolder).2.1 = false →
        x.cl_load (x.WideCharToMultiByte pEnginesFolder).2.2 x.cl_engine_new = CL_SUCCESS →
        x.cl_engine_compile x.cl_engine_new = 0 →
        (Scan_Initialize CL_SUCCESS x pEnginesFolder pLicenseKey s).1 = CLAMAPI_SUCCESS ∧
        (Scan_Initialize CL_SUCCESS x pEnginesFolder pLicenseKey s).2.engine ≠ 0 ∧
        (Scan_Initialize CL_SUCCESS x pEnginesFolder pLicenseKey s).2.engine_refcnt = 0 ∧
        (Scan_Initialize CL_SUCCESS x pEnginesFolder pLicenseKey s).2.engine_event = true) := by
  intro h
  have h1 := h 0 (Externals.ok 0 7 0) [67, 58] []
    { engine := 0, engine_refcnt := 3, engine_event := false, engines_freed := [], heap := [] }
    rfl rfl (by decide) (by decide) rfl rfl rfl
  exact absurd h1.2.2.2 (by decide)

/-- C8 (amended): from every state without an engine, whatever its counter and
drain signal, a `Scan_Initialize` in which the lock, engine creation, path
conversion, load and compile all succeed returns success, leaves the engine
handle equal to the new non-null engine and the session counter zero, releases
nothing, and leaves the drain signal at its prior value; so the signal is set
after the call whenever it was set before it. -/
theorem C8_initialize_success (CL_SUCCESS : Int) (x : Externals)
    (pEnginesFolder pLicenseKey : List Nat) (s : Globals)
    (he : s.engine = 0) (hl : x.WAIT_FAILED = false) (hn : x.cl_engine_new ≠ 0)
    (hc1 : (x.WideCharToMultiByte pEnginesFolder).1 ≠ 0)
    (hc2 : (x.WideCharToMultiByte pEnginesFolder).2.1 = false)
    (hload : x.cl_load (x.WideCharToMultiByte pEnginesFolder).2.2 x.cl_engine_new = CL_SUCCESS)
    (hcomp : x.cl_engine_compile x.cl_engine_new = 0) :
    (Scan_Initialize CL_SUCCESS x pEnginesFolder pLicenseKey s).1 = CLAMAPI_SUCCESS ∧
    (Scan_Initialize CL_SUCCESS x pEnginesFolder pLicenseKey s).2.engine = x.cl_engine_new ∧
    (Scan_Initialize CL_SUCCESS x pEnginesFolder pLicenseKey s).2.engine ≠ 0 ∧
    (Scan_Initialize CL_SUCCESS x pEnginesFolder pLicenseKey s).2.engine_refcnt = 0 ∧
    (Scan_Initialize CL_SUCCESS x pEnginesFolder pLicenseKey s).2.engines_freed
      = s.engines_freed ∧
    (Scan_Initialize CL_SUCCESS x pEnginesFolder pLicenseKey s).2.engine_event
      = s.engine_event ∧
    (s.engine_event = true →
      (Scan_Initialize CL_SUCCESS x pEnginesFolder pLicenseKey s).2.engine_event = true) := by
  simp [Scan_Initialize, lock_engine, he, hl, hn, hc1, hc2, hload, hcomp]

/-- C8 witness: the first initialisation after `interface_setup`. -/
theorem C8_initialize_success_witness :
    (Scan_Initialize 0 (Externals.ok 0 7 0) [67, 58] []
        (interface_setup 0 1 1 static_init).2).2.engine_event = true :=
  (C8_initialize_success 0 (Externals.ok 0 7 0) [67, 58] []
    (interface_setup 0 1 1 static_init).2 rfl rfl (by decide) (by decide) rfl rfl rfl).2.2.2.2.2.2
    rfl

/-- C9: from a state without an engine, if a step of `Scan_Initialize` fails
(the lock, `cl_engine_new`, the conversion of the folder, `cl_load` or
`cl_engine_compile`), the call returns failure with the engine handle null, the
counter, the drain signal and the live blocks unchanged, and the release log
extended by exactly the engine created during the call: one entry when the lock
was taken and `cl_engine_new` returned an engine, none otherwise. -/
theorem C9_initialize_failure (CL_SUCCESS : Int) (x : Externals)
    (pEnginesFolder pLicenseKey : List Nat) (s : Globals) (he : s.engine = 0)
    (hfail : x.WAIT_FAILED = true ∨ x.cl_engine_new = 0 ∨
      (x.WideCharToMultiByte pEnginesFolder).1 = 0 ∨
      (x.WideCharToMultiByte pEnginesFolder).2.1 = true ∨
      x.cl_load (x.WideCharToMultiByte pEnginesFolder).2.2 x.cl_engine_new ≠ CL_SUCCESS ∨
      x.cl_engine_compile x.cl_engine_new ≠ 0) :
    (Scan_Initialize CL_SUCCESS x pEnginesFolder pLicenseKey s).1 = CLAMAPI_FAILURE ∧
    (Scan_Initialize CL_SUCCESS x pEnginesFolder pLicenseKey s).2.engine = 0 ∧
    (Scan_Initialize CL_SUCCESS x pEnginesFolder pLicenseKey s).2.engine_refcnt
      = s.engine_refcnt ∧
    (Scan_Initialize CL_SUCCESS x pEnginesFolder pLicenseKey s).2.engine_event
      = s.engine_event ∧
    (Scan_Initialize CL_SUCCESS x pEnginesFolder pLicenseKey s).2.heap = s.heap ∧
    (Scan_Initialize CL_SUCCESS x pEnginesFolder pLicenseKey s).2.engines_freed
      = (if x.WAIT_FAILED = false ∧ x.cl_engine_new ≠ 0 then [x.cl_engine_new] else [])
          ++ s.engines_freed := by
  unfold Scan_Initialize
  by_cases hl : x.WAIT_FAILED = true
  · simp [lock_engine, hl, he]
  · by_cases hn : x.cl_engine_new = 0
    · simp [lock_engine, hl, he, hn]
    · by_cases hc1 : (x.WideCharToMultiByte pEnginesFolder).1 = 0
      · simp [lock_engine, hl, he, hn, hc1, free_engine_and_unlock]
      · by_cases hc2 : (x.WideCharToMultiByte pEnginesFolder).2.1 = true
        · simp [lock_engine, hl, he, hn, hc2, free_engine_and_unlock]
        · by_cases hload :
            x.cl_load (x.WideCharToMultiByte pEnginesFolder).2.2 x.cl_engine_new = CL_SUCCESS
          · have hcomp : x.cl_engine_compile x.cl_engine_new ≠ 0 := by
              rcases hfail with h | h | h | h | h | h
              · exact absurd h hl
              · exact absurd h hn
              · exact absurd h hc1
              · exact absurd h hc2
              · exact absurd hload h
              · exact h
            simp [lock_engine, hl, he, hn, hc1, hc2, hload, hcomp, free_engine_and_unlock]
          · simp [lock_engine, hl, he, hn, hc1, hc2, hload, free_engine_and_unlock]

/-- C9 witness: the database fails to load (code `-3`) into the new engine `7`,
which is released once. -/
theorem C9_initialize_failure_witness :
    (Scan_Initialize 0
        { WAIT_FAILED := false, cl_engine_new := 7,
          WideCharToMultiByte := fun w => (w.length + 1, false, w),
          cl_load := fun _ _ => -3, cl_engine_compile := fun _ => 0, calloc := 0 }
        [67, 58] [] (interface_setup 0 1 1 static_init).2).2.engines_freed = [7] :=
  (C9_initialize_failure 0
    { WAIT_FAILED := false, cl_engine_new := 7,
      WideCharToMultiByte := fun w => (w.length + 1, false, w),
      cl_load := fun _ _ => -3, cl_engine_compile := fun _ => 0, calloc := 0 }
    [67, 58] [] (interface_setup 0 1 1 static_init).2 rfl
    (Or.inr (Or.inr (Or.inr (Or.inr (Or.inl (by decide))))))).2.2.2.2.2

/-! ## Scan_SetOption and Scan_GetOption -/

/-- C10: a malformed `Scan_SetOption` (the scan-mode option with an input length
other than `sizeof(int)`, or with a value that is neither `CLAM_SCAN_FULL` nor
`CLAM_SCAN_LIGHT`, or any other option id) returns failure and leaves the
session as it was, so a following `Scan_GetOption` of the scan mode into a
buffer of at least `sizeof(int)` bytes succeeds and yields the mode stored
before the failed call. -/
theorem C10_setoption_malformed (CLAM_OPTION_SCAN_MODE CLAM_SCAN_FULL CLAM_SCAN_LIGHT : Int)
    (inst : Instance) (option value : Int) (inputLength : Nat)
    (hbad : (option = CLAM_OPTION_SCAN_MODE ∧ inputLength ≠ sizeof_int) ∨
      (option = CLAM_OPTION_SCAN_MODE ∧ value ≠ CLAM_SCAN_FULL ∧ value ≠ CLAM_SCAN_LIGHT) ∨
      option ≠ CLAM_OPTION_SCAN_MODE) :
    (Scan_SetOption CLAM_OPTION_SCAN_MODE CLAM_SCAN_FULL CLAM_SCAN_LIGHT inst option value
        inputLength).1 = CLAMAPI_FAILURE ∧
    (Scan_SetOption CLAM_OPTION_SCAN_MODE CLAM_SCAN_FULL CLAM_SCAN_LIGHT inst option value
        inputLength).2 = inst ∧
    ∀ (buf : Int) (len out : Nat), sizeof_int ≤ len →
      Scan_GetOption CLAM_OPTION_SCAN_MODE
          (Scan_SetOption CLAM_OPTION_SCAN_MODE CLAM_SCAN_FULL CLAM_SCAN_LIGHT inst option value
            inputLength).2 CLAM_OPTION_SCAN_MODE buf len out
        = (CLAMAPI_SUCCESS, inst.scanmode, sizeof_int) := by
  have hset : Scan_SetOption CLAM_OPTION_SCAN_MODE CLAM_SCAN_FULL CLAM_SCAN_LIGHT inst option
      value inputLength = (CLAMAPI_FAILURE, inst) := by
    unfold Scan_SetOption
    rcases hbad with ⟨h1, h2⟩ | ⟨h1, h2, h3⟩ | h1
    · simp [h1, h2]
    · by_cases hlen : inputLength = sizeof_int <;> simp [h1, h2, h3, hlen]
    · simp [h1]
  rw [hset]
  refine ⟨rfl, rfl, ?_⟩
  intro buf len out hlen
  simp [Scan_GetOption, Nat.not_lt.mpr hlen]

/-- C10 witness: an eight-byte value for the scan mode (option `1`, modes `0`
and `1`) on a session in mode `1`. -/
theorem C10_setoption_malformed_witness :
    (Scan_SetOption 1 0 1 { scancb := 0, scancb_ctx := 0, callback2 := 0, scanmode := 1 }
        1 0 8).1 = CLAMAPI_FAILURE ∧
    Scan_GetOption 1
        (Scan_SetOption 1 0 1 { scancb := 0, scancb_ctx := 0, callback2 := 0, scanmode := 1 }
          1 0 8).2 1 0 4 0 = (CLAMAPI_SUCCESS, 1, sizeof_int) :=
  have h := C10_setoption_malformed 1 0 1
    { scancb := 0, scancb_ctx := 0, callback2 := 0, scanmode := 1 } 1 0 8
    (Or.inl ⟨rfl, by decide⟩)
  ⟨h.1, h.2.2 0 4 0 (by decide)⟩

/-! ## The drain signal and the session counter along call sequences -/

/-- The state `interface_setup` establishes satisfies `DrainInv`. -/
theorem drainInv_setup (r : Int) (m e : Nat)
    (h : (interface_setup r m e static_init).1 = true) :
    DrainInv (interface_setup r m e static_init).2 := by
  unfold interface_setup at h ⊢
  split_ifs at h ⊢ <;> simp_all [DrainInv, static_init, UINT_RANGE]

/-- A lifecycle call that does not wrap the counter preserves `DrainInv`. -/
theorem drainInv_exec (CL_SUCCESS : Int) (s : Globals) (c : Call) (h : DrainInv s)
    (hw : c.wraps s = false) : DrainInv (c.exec CL_SUCCESS s).2 := by
  obtain ⟨e, n, ev, fr, hp⟩ := s
  obtain ⟨h1, h2, h3⟩ := h
  simp only at h1 h2 h3
  cases c with
  | init x d k =>
    simp only [Call.exec, Scan_Initialize, free_engine_and_unlock]
    split_ifs <;> simp_all [DrainInv]
  | uninit x =>
    simp only [Call.exec, Scan_Uninitialize, free_engine_and_unlock]
    split_ifs <;> simp_all [DrainInv]
  | create x pp =>
    simp only [Call.wraps, UINT_RANGE] at hw
    simp only [Call.exec, Scan_CreateInstance, UINT_RANGE] at h1 ⊢
    split_ifs <;> simp_all [DrainInv, UINT_RANGE] <;> omega
  | destroy x p =>
    simp only [Call.wraps] at hw
    simp only [Call.exec, Scan_DestroyInstance, UINT_RANGE] at h1 ⊢
    split_ifs <;> simp_all [DrainInv, UINT_RANGE] <;> omega

/-- A sequence of lifecycle calls none of which wraps the counter preserves
`DrainInv`. -/
theorem drainInv_run (CL_SUCCESS : Int) (calls : List Call) :
    ∀ s : Globals, DrainInv s → noWrap CL_SUCCESS s calls = true →
      DrainInv (run CL_SUCCESS s calls) := by
  induction calls with
  | nil => intro s h _; exact h
  | cons c cs ih =>
    intro s h hw
    simp only [noWrap, Bool.and_eq_true, Bool.not_eq_true'] at hw
    exact ih _ (drainInv_exec CL_SUCCESS s c h hw.1) hw.2

/-- C3 (as stated, refuted): the drain signal is not set exactly when the counter
is zero in every reachable state. After `interface_setup`, a successful
`Scan_Initialize` and a `Scan_DestroyInstance(NULL)` (`free(NULL)` does nothing,
the lock is taken, the engine exists) the counter has wrapped from `0` to
`4294967295` while the event is still signalled. -/
theorem C3_drain_signal_counterexample :
    ¬ (∀ (CL_SUCCESS : Int) (calls : List Call),
        (run CL_SUCCESS (interface_setup 0 1 1 static_init).2 calls).engine_event = true ↔
          (run CL_SUCCESS (interface_setup 0 1 1 static_init).2 calls).engine_refcnt = 0) := by
  intro h
  have h1 := (h 0 [Call.init (Externals.ok 0 7 0) [67, 58] [],
    Call.destroy (Externals.ok 0 0 0) 0]).mp (by decide)
  have h2 : (run 0 (interface_setup 0 1 1 static_init).2
      [Call.init (Externals.ok 0 7 0) [67, 58] [],
        Call.destroy (Externals.ok 0 0 0) 0]).engine_refcnt = 4294967295 := by decide
  rw [h2] at h1
  exact absurd h1 (by decide)

/-- C3 (amended): in every state reached from the state established by a
successful `interface_setup` through a sequence of `Scan_Initialize`,
`Scan_Uninitialize`, `Scan_CreateInstance` and `Scan_DestroyInstance` calls, with
any outcome of the external engine and lock operations, in which the counter
never wraps (no destroy decrements it at zero, no create increments it at
`4294967295`), the drain signal is set if and only if the counter is zero. -/
theorem C3_drain_signal (CL_SUCCESS : Int) (r : Int) (m e : Nat) (calls : List Call)
    (hsetup : (interface_setup r m e static_init).1 = true)
    (hw : noWrap CL_SUCCESS (interface_setup r m e static_init).2 calls = true) :
    (run CL_SUCCESS (interface_setup r m e static_init).2 calls).engine_event = true ↔
      (run CL_SUCCESS (interface_setup r m e static_init).2 calls).engine_refcnt = 0 :=
  (drainInv_run CL_SUCCESS calls _ (drainInv_setup r m e hsetup) hw).2.1

/-- C3 witness: initialise, create two sessions, fail to take the lock in a
destroy, destroy both, uninitialise. -/
theorem C3_drain_signal_witness :
    (run 0 (interface_setup 0 1 1 static_init).2
        [Call.init (Externals.ok 0 7 0) [67, 58] [], Call.create (Externals.ok 0 0 40) 0,
          Call.create (Externals.ok 0 0 48) 0, Call.destroy (Externals.lockFails 0) 40,
          Call.destroy (Externals.ok 0 0 0) 40, Call.destroy (Externals.ok 0 0 0) 48,
          Call.uninit (Externals.ok 0 0 0)]).engine_event = true ↔
      (run 0 (interface_setup 0 1 1 static_init).2
        [Call.init (Externals.ok 0 7 0) [67, 58] [], Call.create (Externals.ok 0 0 40) 0,
          Call.create (Externals.ok 0 0 48) 0, Call.destroy (Externals.lockFails 0) 40,
          Call.destroy (Externals.ok 0 0 0) 40, Call.destroy (Externals.ok 0 0 0) 48,
          Call.uninit (Externals.ok 0 0 0)]).engine_refcnt = 0 :=
  C3_drain_signal 0 0 1 1 _ rfl (by decide)

/-- C4 (evaluation at the failing input): after `interface_setup` and a
successful `Scan_Initialize`, `Scan_CreateInstance` succeeds and returns session
`40`; `Scan_DestroyInstance` of that session with a failing lock acquisition
returns failure after `free(pScanner)` and before the decrement, so no session
is left unreleased while the counter still reads `1`, and a later
`Scan_Uninitialize` that takes the lock is refused. -/
theorem C4_destroy_lock_failure_leaks_count :
    (Scan_CreateInstance (Externals.ok 0 0 40) 0
        (run 0 (interface_setup 0 1 1 static_init).2
          [Call.init (Externals.ok 0 7 0) [67, 58] []])).1 = CLAMAPI_SUCCESS ∧
    (Scan_CreateInstance (Externals.ok 0 0 40) 0
        (run 0 (interface_setup 0 1 1 static_init).2
          [Call.init (Externals.ok 0 7 0) [67, 58] []])).2.1 = 40 ∧
    (Scan_DestroyInstance (Externals.lockFails 0) 40
        (run 0 (interface_setup 0 1 1 static_init).2
          [Call.init (Externals.ok 0 7 0) [67, 58] [],
            Call.create (Externals.ok 0 0 40) 0])).1 = CLAMAPI_FAILURE ∧
    (run 0 (interface_setup 0 1 1 static_init).2
        [Call.init (Externals.ok 0 7 0) [67, 58] [], Call.create (Externals.ok 0 0 40) 0,
          Call.destroy (Externals.lockFails 0) 40]).heap = [] ∧
    (run 0 (interface_setup 0 1 1 static_init).2
        [Call.init (Externals.ok 0 7 0) [67, 58] [], Call.create (Externals.ok 0 0 40) 0,
          Call.destroy (Externals.lockFails 0) 40]).engine_refcnt = 1 ∧
    ( Scan_Uninitialize (Externals.ok 0 0 0)
        (run 0 (interface_setup 0 1 1 static_init).2
          [Call.init (Externals.ok 0 7 0) [67, 58] [], Call.create (Externals.ok 0 0 40) 0,
            Call.destroy (Externals.lockFails 0) 40])).1 = CLAMAPI_FAILURE := by
  decide

/-! ## Balanced create and destroy calls -/

/-- A successful `Scan_CreateInstance` preserves `PairedInv` and adds one live
block. -/
theorem pairedInv_create (x : Externals) (pp : Nat) (s : Globals) (h : PairedInv s)
    (hok : (Scan_CreateInstance x pp s).1 = CLAMAPI_SUCCESS) :
    PairedInv (Scan_CreateInstance x pp s).2.2 ∧
      (Scan_CreateInstance x pp s).2.2.heap.length = s.heap.length + 1 := by
  obtain ⟨e, n, ev, fr, hp⟩ := s
  obtain ⟨h1, h2, h3, h4⟩ := h
  simp only at h1 h2 h3 h4
  unfold Scan_CreateInstance at hok ⊢
  by_cases hc : x.calloc = 0
  · simp [hc] at hok
  · by_cases hl : lock_engine x = true
    · simp [hc, hl] at hok
    · have hc2 : ¬ (0 = x.calloc) := fun h0 => hc h0.symm
      simp [hc, hl, h1, PairedInv, h2, hc2, h3, UINT_RANGE]

/-- A successful `Scan_DestroyInstance` of a live block preserves `PairedInv`
and removes one live block. -/
theorem pairedInv_destroy (x : Externals) (p : Nat) (s : Globals) (h : PairedInv s)
    (hp : p ∈ s.heap) (hok : (Scan_DestroyInstance x p s).1 = CLAMAPI_SUCCESS) :
    PairedInv (Scan_DestroyInstance x p s).2 ∧
      (Scan_DestroyInstance x p s).2.heap.length + 1 = s.heap.length := by
  obtain ⟨e, n, ev, fr, hs⟩ := s
  obtain ⟨h1, h2, h3, h4⟩ := h
  simp only at h1 h2 h3 h4 hp
  have hp0 : p ≠ 0 := fun h0 => h2 (h0 ▸ hp)
  have hlen : (hs.erase p).length + 1 = hs.length := by
    have hpos : 0 < hs.length := List.length_pos_of_mem hp
    rw [List.length_erase_of_mem hp]
    omega
  have hmem : 0 ∉ hs.erase p := fun h0 => h2 (List.mem_of_mem_erase h0)
  have hcnt : (n + (UINT_RANGE - 1)) % UINT_RANGE = (hs.erase p).length % UINT_RANGE := by
    rw [h3, ← hlen]
    simp only [UINT_RANGE]
    omega
  unfold Scan_DestroyInstance at hok ⊢
  by_cases hl : lock_engine x = true
  · simp [hl] at hok
  · have hnil : hs.erase p = [] → (n + (UINT_RANGE - 1)) % UINT_RANGE = 0 := by
      intro h0
      rw [hcnt, h0]
      rfl
    by_cases hz : (n + (UINT_RANGE - 1)) % UINT_RANGE = 0
    · simp [hl, h1, free, hp0, hz, PairedInv, hmem, hlen]
      rw [← hcnt, hz]
    · simp only [hl, h1, free, hp0, hz, PairedInv]
      simp only [Bool.false_eq_true, if_false, ne_eq, not_false_eq_true, true_and]
      exact ⟨⟨h1, hmem, hcnt, fun h0 => absurd (hnil h0) hz⟩, hlen⟩

/-- Along a sequence accepted by `pairedCalls`, `PairedInv` is preserved and the
number of live blocks changes by the number of creates minus the number of
destroys. -/
theorem pairedInv_run (CL_SUCCESS : Int) (calls : List Call) :
    ∀ s : Globals, PairedInv s → pairedCalls CL_SUCCESS s calls = true →
      PairedInv (run CL_SUCCESS s calls) ∧
        (run CL_SUCCESS s calls).heap.length + calls.countP Call.isDestroy
          = s.heap.length + calls.countP Call.isCreate := by
  induction calls with
  | nil => intro s h _; exact ⟨h, rfl⟩
  | cons c cs ih =>
    intro s h hp
    cases c with
    | init x d k => simp [pairedCalls] at hp
    | uninit x => simp [pairedCalls] at hp
    | create x pp =>
      simp only [pairedCalls, Bool.and_eq_true, decide_eq_true_eq] at hp
      obtain ⟨h1, h2⟩ := pairedInv_create x pp s h hp.1
      obtain ⟨h3, h4⟩ := ih _ h1 hp.2
      refine ⟨h3, ?_⟩
      simp only [run, Call.exec, List.countP_cons, Call.isCreate, Call.isDestroy] at h4 ⊢
      simp only [Bool.false_eq_true, if_false, if_true] at h4 ⊢
      omega
    | destroy x p =>
      simp only [pairedCalls, Bool.and_eq_true, decide_eq_true_eq] at hp
      obtain ⟨h1, h2⟩ := pairedInv_destroy x p s h hp.1.1 hp.1.2
      obtain ⟨h3, h4⟩ := ih _ h1 hp.2
      refine ⟨h3, ?_⟩
      simp only [run, Call.exec, List.countP_cons, Call.isCreate, Call.isDestroy] at h4 ⊢
      simp only [Bool.false_eq_true, if_false, if_true] at h4 ⊢
      omega

/-- A successful `Scan_Initialize` right after a successful `interface_setup`
establishes `PairedInv` with no live block. -/
theorem pairedInv_fresh (CL_SUCCESS : Int) (r : Int) (m e : Nat) (x : Externals)
    (d k : List Nat) (hsetup : (interface_setup r m e static_init).1 = true)
    (hinit : (Scan_Initialize CL_SUCCESS x d k (interface_setup r m e static_init).2).1
      = CLAMAPI_SUCCESS) :
    PairedInv (Scan_Initialize CL_SUCCESS x d k (interface_setup r m e static_init).2).2 ∧
      (Scan_Initialize CL_SUCCESS x d k (interface_setup r m e static_init).2).2.heap = [] := by
  have hs : (interface_setup r m e static_init).2
      = { static_init with engine_event := true } := by
    unfold interface_setup at hsetup ⊢
    split_ifs at hsetup ⊢ <;> simp_all
  rw [hs] at hinit ⊢
  unfold Scan_Initialize at hinit ⊢
  simp only [static_init, free_engine_and_unlock] at hinit ⊢
  split_ifs at hinit ⊢ <;> simp_all [PairedInv, UINT_RANGE]

/-- C5: start from the manager as a successful `Scan_Initialize` leaves it right
after a successful `interface_setup`. For every `N` and every sequence of `N`
successful `Scan_CreateInstance` and `N` successful `Scan_DestroyInstance` calls,
in any order in which each destroy is applied to a session that was created and
is not yet destroyed, the final counter is `0`, the drain signal is set, no
session block is left, and a `Scan_Uninitialize` that takes the lock succeeds. -/
theorem C5_balanced_sessions (CL_SUCCESS : Int) (r : Int) (m e : Nat) (x : Externals)
    (d k : List Nat) (N : Nat) (calls : List Call)
    (hsetup : (interface_setup r m e static_init).1 = true)
    (hinit : (Scan_Initialize CL_SUCCESS x d k (interface_setup r m e static_init).2).1
      = CLAMAPI_SUCCESS)
    (hpaired : pairedCalls CL_SUCCESS
      (Scan_Initialize CL_SUCCESS x d k (interface_setup r m e static_init).2).2 calls = true)
    (hcreate : calls.countP Call.isCreate = N) (hdestroy : calls.countP Call.isDestroy = N) :
    (run CL_SUCCESS (Scan_Initialize CL_SUCCESS x d k (interface_setup r m e static_init).2).2
        calls).engine_refcnt = 0 ∧
    (run CL_SUCCESS (Scan_Initialize CL_SUCCESS x d k (interface_setup r m e static_init).2).2
        calls).engine_event = true ∧
    (run CL_SUCCESS (Scan_Initialize CL_SUCCESS x d k (interface_setup r m e static_init).2).2
        calls).heap = [] ∧
    ∀ u : Externals, u.WAIT_FAILED = false →
      ( Scan_Uninitialize u
        (run CL_SUCCESS (Scan_Initialize CL_SUCCESS x d k (interface_setup r m e static_init).2).2
          calls)).1 = CLAMAPI_SUCCESS := by
  obtain ⟨h0, hheap⟩ := pairedInv_fresh CL_SUCCESS r m e x d k hsetup hinit
  obtain ⟨⟨h1, _, h3, h4⟩, h5⟩ := pairedInv_run CL_SUCCESS calls _ h0 hpaired
  rw [hheap, hcreate, hdestroy] at h5
  have hlen : (run CL_SUCCESS
      (Scan_Initialize CL_SUCCESS x d k (interface_setup r m e static_init).2).2
      calls).heap.length = 0 := by
    simp only [List.length_nil] at h5
    omega
  have hnil := List.length_eq_zero.mp hlen
  have hz : (run CL_SUCCESS
      (Scan_Initialize CL_SUCCESS x d k (interface_setup r m e static_init).2).2
      calls).engine_refcnt = 0 := by
    rw [h3, hlen]
    rfl
  refine ⟨hz, h4 hnil, hnil, ?_⟩
  intro u hu
  simp [ Scan_Uninitialize, lock_engine, hu, h1, hz]

/-- C5 witness: two sessions, created and destroyed in interleaved order. -/
theorem C5_balanced_sessions_witness :
    (run 0 (Scan_Initialize 0 (Externals.ok 0 7 0) [67, 58] []
        (interface_setup 0 1 1 static_init).2).2
      [Call.create (Externals.ok 0 0 40) 0, Call.create (Externals.ok 0 0 48) 0,
        Call.destroy (Externals.ok 0 0 0) 40, Call.create (Externals.ok 0 0 56) 0,
        Call.destroy (Externals.ok 0 0 0) 56, Call.destroy (Externals.ok 0 0 0) 48]).engine_refcnt
      = 0 :=
  (C5_balanced_sessions 0 0 1 1 (Externals.ok 0 7 0) [67, 58] [] 3
    [Call.create (Externals.ok 0 0 40) 0, Call.create (Externals.ok 0 0 48) 0,
      Call.destroy (Externals.ok 0 0 0) 40, Call.create (Externals.ok 0 0 56) 0,
      Call.destroy (Externals.ok 0 0 0) 56, Call.destroy (Externals.ok 0 0 0) 48]
    rfl (by decide) (by decide) (by decide) (by decide)).1

/-! ## Scan mode round trip and the option set of a scan -/

/-- C11: for every session and every mode `m` that is `CLAM_SCAN_FULL` or
`CLAM_SCAN_LIGHT`, `Scan_SetOption` of the scan-mode option with `m` and length
`sizeof(int)` returns success and stores `m` (nothing else of the session
changes); a following `Scan_GetOption` of the scan mode with an input length of
at least `sizeof(int)` returns success, yields exactly `m` and reports the
length `sizeof(int)`; and `Scan_GetOption`, whatever its arguments, leaves the
sessions and the globals as they were. -/
theorem C11_set_get_roundtrip (CLAM_OPTION_SCAN_MODE CLAM_SCAN_FULL CLAM_SCAN_LIGHT : Int)
    (inst : Instance) (m : Int) (hm : m = CLAM_SCAN_FULL ∨ m = CLAM_SCAN_LIGHT) :
    (Scan_SetOption CLAM_OPTION_SCAN_MODE CLAM_SCAN_FULL CLAM_SCAN_LIGHT inst
        CLAM_OPTION_SCAN_MODE m sizeof_int).1 = CLAMAPI_SUCCESS ∧
    (Scan_SetOption CLAM_OPTION_SCAN_MODE CLAM_SCAN_FULL CLAM_SCAN_LIGHT inst
        CLAM_OPTION_SCAN_MODE m sizeof_int).2 = { inst with scanmode := m } ∧
    (∀ (buf : Int) (len out : Nat), sizeof_int ≤ len →
      Scan_GetOption CLAM_OPTION_SCAN_MODE
          (Scan_SetOption CLAM_OPTION_SCAN_MODE CLAM_SCAN_FULL CLAM_SCAN_LIGHT inst
            CLAM_OPTION_SCAN_MODE m sizeof_int).2 CLAM_OPTION_SCAN_MODE buf len out
        = (CLAMAPI_SUCCESS, m, sizeof_int)) ∧
    (∀ (H : Headers) (w : World) (p : Nat) (o v : Int) (len out : Nat),
      (SessionCall.exec H w (SessionCall.getOption p o v len out)).2 = w) := by
  have hset : Scan_SetOption CLAM_OPTION_SCAN_MODE CLAM_SCAN_FULL CLAM_SCAN_LIGHT inst
      CLAM_OPTION_SCAN_MODE m sizeof_int = (CLAMAPI_SUCCESS, { inst with scanmode := m }) := by
    unfold Scan_SetOption
    rcases hm with h | h <;> simp [h]
  rw [hset]
  refine ⟨rfl, rfl, ?_, ?_⟩
  · intro buf len out hlen
    simp [Scan_GetOption, Nat.not_lt.mpr hlen]
  · intro H w p o v len out
    rfl

/-- C11 witness: switching a session from mode `0` to the light mode `1`. -/
theorem C11_set_get_roundtrip_witness :
    Scan_GetOption 1 (Scan_SetOption 1 0 1 (Instance.inMode 0) 1 1 sizeof_int).2 1 0 4 0
      = (CLAMAPI_SUCCESS, 1, sizeof_int) :=
  (C11_set_get_roundtrip 1 0 1 (Instance.inMode 0) 1 (Or.inr rfl)).2.2.1 0 4 0 (by decide)

/-- C17: for every directory argument (null and empty included) and every
descriptor, `cli_pst` returns `CL_EFORMAT`; as `CL_EFORMAT` differs from
`CL_CLEAN` and from `CL_VIRUS`, it returns neither of them; and its result is
the same for any two pairs of arguments. -/
theorem C17_cli_pst (CL_EFORMAT CL_CLEAN CL_VIRUS : Int) (dir : Option (List Nat))
    (desc : Int) :
    cli_pst CL_EFORMAT dir desc = CL_EFORMAT ∧
    cli_pst CL_EFORMAT none desc = CL_EFORMAT ∧
    cli_pst CL_EFORMAT (some []) desc = CL_EFORMAT ∧
    (CL_EFORMAT ≠ CL_CLEAN → cli_pst CL_EFORMAT dir desc ≠ CL_CLEAN) ∧
    (CL_EFORMAT ≠ CL_VIRUS → cli_pst CL_EFORMAT dir desc ≠ CL_VIRUS) ∧
    (∀ (dir2 : Option (List Nat)) (desc2 : Int),
      cli_pst CL_EFORMAT dir2 desc2 = cli_pst CL_EFORMAT dir desc) :=
  ⟨rfl, rfl, rfl, fun h => h, fun h => h, fun _ _ => rfl⟩

/-- C17 witness: a null directory and descriptor `-1`, with the codes `13`, `0`
and `1` for unsupported format, clean and virus. -/
theorem C17_cli_pst_witness :
    cli_pst 13 none (-1) ≠ 0 ∧ cli_pst 13 none (-1) ≠ 1 :=
  ⟨(C17_cli_pst 13 0 1 none (-1)).2.2.2.1 (by decide),
    (C17_cli_pst 13 0 1 none (-1)).2.2.2.2.1 (by decide)⟩

/-! ## Engine handle and counter along call sequences -/

/-- Every lifecycle call preserves `EngineInv`. -/
theorem engineInv_exec (CL_SUCCESS : Int) (s : Globals) (c : Call) (h : EngineInv s) :
    EngineInv (c.exec CL_SUCCESS s).2 := by
  obtain ⟨e, n, ev, fr, hp⟩ := s
  simp only [EngineInv] at h
  cases c with
  | init x d k =>
    simp only [Call.exec, Scan_Initialize, free_engine_and_unlock]
    split_ifs <;> simp_all [EngineInv]
  | uninit x =>
    simp only [Call.exec, Scan_Uninitialize, free_engine_and_unlock]
    split_ifs <;> simp_all [EngineInv]
  | create x pp =>
    simp only [Call.exec, Scan_CreateInstance]
    split_ifs <;> simp_all [EngineInv]
  | destroy x p =>
    simp only [Call.exec, Scan_DestroyInstance]
    split_ifs <;> simp_all [EngineInv]

/-- Every sequence of lifecycle calls preserves `EngineInv`. -/
theorem engineInv_run (CL_SUCCESS : Int) (calls : List Call) :
    ∀ s : Globals, EngineInv s → EngineInv (run CL_SUCCESS s calls) := by
  induction calls with
  | nil => intro s h; exact h
  | cons c cs ih => intro s h; exact ih _ (engineInv_exec CL_SUCCESS s c h)

/-- C20: in every state reached from a state with a null engine and a counter
of zero through any sequence of `Scan_Initialize`, `Scan_Uninitialize`,
`Scan_CreateInstance` and `Scan_DestroyInstance` calls, with any arguments and
any outcome of the external operations, a null engine handle implies a counter
of zero; in such a state a further call changes the counter only if an engine
exists, and turns a non-null engine handle into a null one only if the counter
is zero. -/
theorem C20_no_engine_no_sessions (CL_SUCCESS : Int) (s0 : Globals)
    (h0 : s0.engine = 0) (h1 : s0.engine_refcnt = 0) (calls : List Call) :
    ((run CL_SUCCESS s0 calls).engine = 0 → (run CL_SUCCESS s0 calls).engine_refcnt = 0) ∧
    (∀ c : Call,
      (c.exec CL_SUCCESS (run CL_SUCCESS s0 calls)).2.engine_refcnt
          ≠ (run CL_SUCCESS s0 calls).engine_refcnt →
        (run CL_SUCCESS s0 calls).engine ≠ 0) ∧
    (∀ c : Call,
      (run CL_SUCCESS s0 calls).engine ≠ 0 →
        (c.exec CL_SUCCESS (run CL_SUCCESS s0 calls)).2.engine = 0 →
        (run CL_SUCCESS s0 calls).engine_refcnt = 0) := by
  have hinv : EngineInv (run CL_SUCCESS s0 calls) :=
    engineInv_run CL_SUCCESS calls s0 (fun _ => h1)
  generalize run CL_SUCCESS s0 calls = t at hinv ⊢
  obtain ⟨e, n, ev, fr, hp⟩ := t
  simp only [EngineInv] at hinv
  refine ⟨hinv, ?_, ?_⟩
  · intro c hc he
    simp only at he
    subst he
    have hn : n = 0 := hinv rfl
    subst hn
    apply hc
    cases c with
    | init x d k =>
      simp only [Call.exec, Scan_Initialize, free_engine_and_unlock]
      split_ifs <;> rfl
    | uninit x =>
      simp only [Call.exec, Scan_Uninitialize, free_engine_and_unlock]
      split_ifs <;> rfl
    | create x pp =>
      simp only [Call.exec, Scan_CreateInstance]
      split_ifs <;> rfl
    | destroy x p =>
      simp only [Call.exec, Scan_DestroyInstance]
      split_ifs <;> rfl
  · intro c he hc
    simp only at he
    by_contra hn
    cases c with
    | init x d k =>
      simp only [Call.exec, Scan_Initialize, free_engine_and_unlock] at hc
      split_ifs at hc <;> simp_all
    | uninit x =>
      simp only [Call.exec, Scan_Uninitialize, free_engine_and_unlock] at hc
      split_ifs at hc <;> simp_all
    | create x pp =>
      simp only [Call.exec, Scan_CreateInstance] at hc
      split_ifs at hc <;> simp_all
    | destroy x p =>
      simp only [Call.exec, Scan_DestroyInstance] at hc
      split_ifs at hc <;> simp_all

/-- C20 witness: after setup, a failed load, a create without engine, a
successful initialisation, a session created and destroyed, and the release of
the engine. -/
theorem C20_no_engine_no_sessions_witness :
    (run 0 (interface_setup 0 1 1 static_init).2
        [Call.init { Externals.ok 0 7 0 with cl_load := fun _ _ => -3 } [67, 58] [],
          Call.create (Externals.ok 0 0 40) 0, Call.init (Externals.ok 0 8 0) [67, 58] [],
          Call.create (Externals.ok 0 0 40) 0, Call.destroy (Externals.ok 0 0 0) 40,
          Call.uninit (Externals.ok 0 0 0)]).engine = 0 ∧
      (run 0 (interface_setup 0 1 1 static_init).2
        [Call.init { Externals.ok 0 7 0 with cl_load := fun _ _ => -3 } [67, 58] [],
          Call.create (Externals.ok 0 0 40) 0, Call.init (Externals.ok 0 8 0) [67, 58] [],
          Call.create (Externals.ok 0 0 40) 0, Call.destroy (Externals.ok 0 0 0) 40,
          Call.uninit (Externals.ok 0 0 0)]).engine_refcnt = 0 :=
  ⟨by decide,
    (C20_no_engine_no_sessions 0 (interface_setup 0 1 1 static_init).2 rfl rfl _).1 (by decide)⟩

/-! ## Frame of the session and scan calls -/

/-- C18: the engine handle, the session counter and the drain signal (and the
engine release log) are the same before and after `Scan_ScanObject`,
`Scan_ScanObjectByHandle` and `Scan_DeleteScanInfo`, which only allocate and
free result containers, and before and after every one of the six calls that
are not lifecycle calls when it acts on the session its `pScanner` points to,
for every state and all arguments; the two scan operations leave every session,
so its mode and callback fields, unchanged. -/
theorem C18_frame (H : Headers) (w : World) (c : SessionCall) :
    (∀ (x : ScanExternals) (inst : Instance) (path : List Nat) (pObject ty act pid st : Int)
        (p il : Nat) (s : Globals),
      ((Scan_ScanObjectByHandle H x inst pObject ty act pid st il s).globals.engine = s.engine ∧
        (Scan_ScanObjectByHandle H x inst pObject ty act pid st il s).globals.engine_refcnt
          = s.engine_refcnt ∧
        (Scan_ScanObjectByHandle H x inst pObject ty act pid st il s).globals.engine_event
          = s.engine_event) ∧
      ((Scan_ScanObject H x inst path ty act pid st il s).globals.engine = s.engine ∧
        (Scan_ScanObject H x inst path ty act pid st il s).globals.engine_refcnt
          = s.engine_refcnt ∧
        (Scan_ScanObject H x inst path ty act pid st il s).globals.engine_event
          = s.engine_event) ∧
      ((Scan_DeleteScanInfo p il s).2.engine = s.engine ∧
        (Scan_DeleteScanInfo p il s).2.engine_refcnt = s.engine_refcnt ∧
        (Scan_DeleteScanInfo p il s).2.engine_event = s.engine_event)) ∧
    ((c.exec H w).2.globals.engine = w.globals.engine ∧
      (c.exec H w).2.globals.engine_refcnt = w.globals.engine_refcnt ∧
      (c.exec H w).2.globals.engine_event = w.globals.engine_event ∧
      (c.exec H w).2.globals.engines_freed = w.globals.engines_freed) ∧
    (∀ (x : ScanExternals) (p : Nat) (path : List Nat) (pObject ty act pid st : Int) (il : Nat),
      (SessionCall.exec H w (SessionCall.scanObject x p path ty act pid st il)).2.sessions
          = w.sessions ∧
      (SessionCall.exec H w (SessionCall.scanObjectByHandle x p pObject ty act pid st il)).2.sessions
          = w.sessions) := by
  have hbh : ∀ (x : ScanExternals) (inst : Instance) (pObject ty act pid st : Int) (il : Nat)
      (s : Globals),
      (Scan_ScanObjectByHandle H x inst pObject ty act pid st il s).globals.engine = s.engine ∧
      (Scan_ScanObjectByHandle H x inst pObject ty act pid st il s).globals.engine_refcnt
        = s.engine_refcnt ∧
      (Scan_ScanObjectByHandle H x inst pObject ty act pid st il s).globals.engine_event
        = s.engine_event ∧
      (Scan_ScanObjectByHandle H x inst pObject ty act pid st il s).globals.engines_freed
        = s.engines_freed := by
    intro x inst pObject ty act pid st il s
    unfold Scan_ScanObjectByHandle
    simp only
    split_ifs <;> simp
  have hso : ∀ (x : ScanExternals) (inst : Instance) (path : List Nat) (ty act pid st : Int)
      (il : Nat) (s : Globals),
      (Scan_ScanObject H x inst path ty act pid st il s).globals.engine = s.engine ∧
      (Scan_ScanObject H x inst path ty act pid st il s).globals.engine_refcnt
        = s.engine_refcnt ∧
      (Scan_ScanObject H x inst path ty act pid st il s).globals.engine_event
        = s.engine_event ∧
      (Scan_ScanObject H x inst path ty act pid st il s).globals.engines_freed
        = s.engines_freed := by
    intro x inst path ty act pid st il s
    unfold Scan_ScanObject
    simp only
    split_ifs
    · simp
    · simp
    · exact hbh x inst _ ty act pid st il s
  refine ⟨?_, ?_, ?_⟩
  · intro x inst path pObject ty act pid st p il s
    have h1 := hbh x inst pObject ty act pid st il s
    have h2 := hso x inst path ty act pid st il s
    exact ⟨⟨h1.1, h1.2.1, h1.2.2.1⟩, ⟨h2.1, h2.2.1, h2.2.2.1⟩, rfl, rfl, rfl⟩
  · cases c with
    | setScanCallback p cb ctx => exact ⟨rfl, rfl, rfl, rfl⟩
    | setOption p o v len => exact ⟨rfl, rfl, rfl, rfl⟩
    | getOption p o v len out => exact ⟨rfl, rfl, rfl, rfl⟩
    | scanObject x p path ty act pid st il => exact hso x _ path ty act pid st il _
    | scanObjectByHandle x p obj ty act pid st il => exact hbh x _ obj ty act pid st il _
    | deleteScanInfo p il => exact ⟨rfl, rfl, rfl, rfl⟩
  · intro x p path pObject ty act pid st il
    exact ⟨rfl, rfl⟩

/-! ## Results of a scan -/

/-- The name buffer of the result container has `MAX_VIRNAME_LEN` bytes,
whatever the sizes of the list header and of the entry. -/
theorem wvirname_capacity_eq (H : Headers) : wvirname_capacity H = 1024 := by
  simp [wvirname_capacity, info_alloc_size, wvirname_offset, MAX_VIRNAME_LEN]

/-- With the single-byte conversion, a reported name that fits the character
count `MAX_VIRNAME_LEN` with its terminator is stored from the address of the
name buffer on in full, one wide character per byte and the terminator. -/
theorem scan_stores_whole_name (n : List Nat) (hn : n.length + 1 ≤ MAX_VIRNAME_LEN) :
    (Scan_ScanObjectByHandle Headers.sample (ScanExternals.ok 500 1 n) (Instance.inMode 0)
        5 0 0 0 0 0 Globals.sample).block
      = some { cbCount := 1
               scaninfo := { cbSize := 20, objectType := 0,
                             pObjectPath := WidePtr.literal "FIXME", scanStatus := 3,
                             pThreatName := WidePtr.wvirname }
               wvirname := n ++ [0]
               capacity := 1024 } := by
  simp only [MAX_VIRNAME_LEN] at hn
  have hn2 : n.length ≤ 1023 := by omega
  simp [Scan_ScanObjectByHandle, ScanExternals.ok, Headers.sample, Instance.inMode,
    widenSingleByte, hn2, wvirname_capacity, info_alloc_size, wvirname_offset, MAX_VIRNAME_LEN,
    InfoBlock.zeroed]

/-- C12 (as stated, refuted): it is not the case that in every file-kind scan
with successful allocation, duplication and opening in which the engine reports
`CL_VIRUS` with a name `n`, the entry of the returned list has the conversion
of `n` as its threat name. For a name of 600 bytes the conversion succeeds and
the entry points to the name buffer, but the converted name, 1202 bytes, does
not lie inside the 1024 bytes the block has there. -/
theorem C12_infected_result_counterexample :
    ¬ (∀ (H : Headers) (x : ScanExternals) (inst : Instance) (pObject ty act pid st : Int)
        (il : Nat) (s : Globals) (n : List Nat),
        ty = H.CLAMAPI_OBJECT_TYPE_FILE → x.calloc ≠ 0 →
        (x.DuplicateHandle pObject).1 = true →
        x.open_osfhandle (x.DuplicateHandle pObject).2 ≠ -1 →
        x.cl_scandesc (x.open_osfhandle (x.DuplicateHandle pObject).2) s.engine
          (scan_options H inst) = (H.CL_VIRUS, n) →
        (Scan_ScanObjectByHandle H x inst pObject ty act pid st il s).ret = CLAMAPI_SUCCESS ∧
        ∃ b : InfoBlock,
          (Scan_ScanObjectByHandle H x inst pObject ty act pid st il s).block = some b ∧
          b.cbCount = 1 ∧ b.scaninfo.objectType = ty ∧
          b.scaninfo.pObjectPath = WidePtr.literal "FIXME" ∧ b.scaninfo.scanStatus = 3 ∧
          ((x.MultiByteToWideChar n MAX_VIRNAME_LEN).1 ≠ 0 →
            b.threatName = some (x.MultiByteToWideChar n MAX_VIRNAME_LEN).2) ∧
          ((x.MultiByteToWideChar n MAX_VIRNAME_LEN).1 = 0 →
            b.threatName = some (literalText "INFECTED"))) := by
  intro h
  have key : ∀ n : List Nat, n.length + 1 ≤ MAX_VIRNAME_LEN →
      1024 < 2 * (n.length + 1) → False := by
    intro n hlen hlong
    obtain ⟨_, b, hb, _, _, _, _, hconv, _⟩ :=
      h Headers.sample (ScanExternals.ok 500 1 n) (Instance.inMode 0) 5 0 0 0 0 0
        Globals.sample n rfl (by simp [ScanExternals.ok]) rfl (by simp [ScanExternals.ok]) rfl
    rw [scan_stores_whole_name n hlen] at hb
    have hb2 := (Option.some.inj hb).symm
    subst hb2
    have hwide : (ScanExternals.ok 500 1 n).MultiByteToWideChar n MAX_VIRNAME_LEN
        = (n.length + 1, n ++ [0]) := by
      show widenSingleByte n MAX_VIRNAME_LEN = _
      unfold widenSingleByte
      rw [if_pos hlen]
    rw [hwide] at hconv
    have hnone : InfoBlock.threatName
        { cbCount := 1
          scaninfo := { cbSize := 20, objectType := 0, pObjectPath := WidePtr.literal "FIXME",
                        scanStatus := 3, pThreatName := WidePtr.wvirname }
          wvirname := n ++ [0]
          capacity := 1024 } = none := by
      simp only [InfoBlock.threatName, InfoBlock.wvirname_bytes, sizeof_wchar_t,
        List.length_append, List.length_singleton]
      rw [if_neg (by omega)]
    rw [hnone] at hconv
    exact absurd (hconv (Nat.succ_ne_zero _)) (by simp)
  refine key (List.replicate 600 65) ?_ ?_
  · rw [List.length_replicate]
    decide
  · rw [List.length_replicate]
    decide

/-- C12 (amended): for a file-kind scan in which the container is allocated,
the handle is duplicated and opened, the engine returns `CL_VIRUS` with the
name `n`, and what the conversion of `n` stores takes at most the
`MAX_VIRNAME_LEN` bytes of the name buffer, `Scan_ScanObjectByHandle` returns
success and hands the container to the caller with `cbCount = 1`, nothing
stored outside the block, and one entry whose object kind is the requested
kind, whose path is the literal `FIXME` and whose status is `3`. When the
conversion succeeds the entry's threat name points to the name buffer and is
the converted name; when it fails (return value `0`) the threat name is the
literal `INFECTED`, and the call succeeds all the same. -/
theorem C12_infected_result (H : Headers) (x : ScanExternals) (inst : Instance)
    (pObject ty act pid st : Int) (il : Nat) (s : Globals) (n : List Nat)
    (hfile : ty = H.CLAMAPI_OBJECT_TYPE_FILE) (halloc : x.calloc ≠ 0)
    (hdup : (x.DuplicateHandle pObject).1 = true)
    (hopen : x.open_osfhandle (x.DuplicateHandle pObject).2 ≠ -1)
    (hscan : x.cl_scandesc (x.open_osfhandle (x.DuplicateHandle pObject).2) s.engine
      (scan_options H inst) = (H.CL_VIRUS, n))
    (hfit : sizeof_wchar_t * (x.MultiByteToWideChar n MAX_VIRNAME_LEN).2.length
      ≤ MAX_VIRNAME_LEN) :
    (Scan_ScanObjectByHandle H x inst pObject ty act pid st il s).ret = CLAMAPI_SUCCESS ∧
    (Scan_ScanObjectByHandle H x inst pObject ty act pid st il s).pInfoList = x.calloc ∧
    ∃ b : InfoBlock,
      (Scan_ScanObjectByHandle H x inst pObject ty act pid st il s).block = some b ∧
      b.cbCount = 1 ∧ b.scaninfo.objectType = ty ∧
      b.scaninfo.pObjectPath = WidePtr.literal "FIXME" ∧ b.scaninfo.scanStatus = 3 ∧
      b.scaninfo.cbSize = H.sizeof_CLAM_SCAN_INFO ∧
      b.capacity = MAX_VIRNAME_LEN ∧ b.overrun = 0 ∧
      ((x.MultiByteToWideChar n MAX_VIRNAME_LEN).1 ≠ 0 →
        b.scaninfo.pThreatName = WidePtr.wvirname ∧
        b.wvirname = (x.MultiByteToWideChar n MAX_VIRNAME_LEN).2 ∧
        b.threatName = some (x.MultiByteToWideChar n MAX_VIRNAME_LEN).2) ∧
      ((x.MultiByteToWideChar n MAX_VIRNAME_LEN).1 = 0 →
        b.scaninfo.pThreatName = WidePtr.literal "INFECTED" ∧
        b.threatName = some (literalText "INFECTED")) := by
  have hcap := wvirname_capacity_eq H
  unfold Scan_ScanObjectByHandle
  simp only [hfile, ne_eq, not_true_eq_false, if_false, halloc, hdup, Bool.true_eq_false,
    hopen, hscan, if_true]
  simp only [MAX_VIRNAME_LEN] at hfit ⊢
  refine ⟨trivial, trivial, _, rfl, rfl, rfl, rfl, rfl, rfl, ?_, ?_, ?_, ?_⟩
  · simp only [hcap]
  · simp only [InfoBlock.overrun, InfoBlock.wvirname_bytes, hcap]
    exact Nat.sub_eq_zero_of_le hfit
  · intro h
    simp [InfoBlock.threatName, InfoBlock.wvirname_bytes, hcap, h, hfit]
  · intro h
    simp [InfoBlock.threatName, h]

/-- C12 witness: the engine reports the five-letter name `Eicar`. -/
theorem C12_infected_result_witness :
    (Scan_ScanObjectByHandle Headers.sample (ScanExternals.ok 500 1 [69, 105, 99, 97, 114])
        (Instance.inMode 0) 5 0 0 0 0 0 Globals.sample).ret = CLAMAPI_SUCCESS ∧
    (Scan_ScanObjectByHandle Headers.sample (ScanExternals.ok 500 1 [69, 105, 99, 97, 114])
        (Instance.inMode 0) 5 0 0 0 0 0 Globals.sample).pInfoList = 500 :=
  have h := C12_infected_result Headers.sample (ScanExternals.ok 500 1 [69, 105, 99, 97, 114])
    (Instance.inMode 0) 5 0 0 0 0 0 Globals.sample [69, 105, 99, 97, 114] rfl (by decide) rfl
    (by decide) rfl (by decide)
  ⟨h.1, h.2.1⟩

/-- C13 (as stated, refuted): there is no status value that a clean scan always
leaves in `*pScanStatus`. On a clean file, with allocation, duplication and
opening all successful, the call returns with `*pScanStatus` equal to whatever
the caller had there: `Scan_ScanObjectByHandle` never assigns through
`pScanStatus`. -/
theorem C13_clean_result_counterexample :
    ¬ ∃ CLEAN_STATUS : Int, ∀ st : Int,
        (Scan_ScanObjectByHandle Headers.sample (ScanExternals.ok 500 0 []) (Instance.inMode 0)
          5 0 0 0 st 0 Globals.sample).pScanStatus = CLEAN_STATUS := by
  rintro ⟨c, h⟩
  have h0 : (Scan_ScanObjectByHandle Headers.sample (ScanExternals.ok 500 0 [])
      (Instance.inMode 0) 5 0 0 0 0 0 Globals.sample).pScanStatus = 0 := by decide
  have h1 : (Scan_ScanObjectByHandle Headers.sample (ScanExternals.ok 500 0 [])
      (Instance.inMode 0) 5 0 0 0 1 0 Globals.sample).pScanStatus = 1 := by decide
  have e0 := h 0
  have e1 := h 1
  rw [h0] at e0
  rw [h1] at e1
  omega

/-- C13 (amended): for a file-kind scan in which the container is allocated,
the handle is duplicated and opened, and the engine returns `CL_CLEAN` (a code
other than `CL_VIRUS`), `Scan_ScanObjectByHandle` returns success and hands the
caller the container as `calloc` delivered it, so with `cbCount = 0` and no
entry populated, and it leaves `*pScanStatus` at the caller's value;
`Scan_ScanObject` on a path that `CreateFileW` opens to that handle returns the
same outcome. -/
theorem C13_clean_result (H : Headers) (x : ScanExternals) (inst : Instance)
    (pObject ty act pid st : Int) (il : Nat) (s : Globals) (virname : List Nat)
    (hfile : ty = H.CLAMAPI_OBJECT_TYPE_FILE) (halloc : x.calloc ≠ 0)
    (hdup : (x.DuplicateHandle pObject).1 = true)
    (hopen : x.open_osfhandle (x.DuplicateHandle pObject).2 ≠ -1)
    (hscan : x.cl_scandesc (x.open_osfhandle (x.DuplicateHandle pObject).2) s.engine
      (scan_options H inst) = (H.CL_CLEAN, virname))
    (hne : H.CL_CLEAN ≠ H.CL_VIRUS) :
    (Scan_ScanObjectByHandle H x inst pObject ty act pid st il s).ret = CLAMAPI_SUCCESS ∧
    (Scan_ScanObjectByHandle H x inst pObject ty act pid st il s).pScanStatus = st ∧
    (Scan_ScanObjectByHandle H x inst pObject ty act pid st il s).pInfoList = x.calloc ∧
    (Scan_ScanObjectByHandle H x inst pObject ty act pid st il s).block
      = some InfoBlock.zeroed ∧
    InfoBlock.zeroed.cbCount = 0 ∧
    ∀ path : List Nat, x.CreateFileW path = pObject → pObject ≠ INVALID_HANDLE_VALUE →
      Scan_ScanObject H x inst path ty act pid st il s
        = Scan_ScanObjectByHandle H x inst pObject ty act pid st il s := by
  refine ⟨?_, ?_, ?_, ?_, rfl, ?_⟩
  · unfold Scan_ScanObjectByHandle
    simp [hfile, halloc, hdup, hopen, hscan, hne]
  · unfold Scan_ScanObjectByHandle
    simp [hfile, halloc, hdup, hopen, hscan, hne]
  · unfold Scan_ScanObjectByHandle
    simp [hfile, halloc, hdup, hopen, hscan, hne]
  · unfold Scan_ScanObjectByHandle
    simp [hfile, halloc, hdup, hopen, hscan, hne, wvirname_capacity_eq, InfoBlock.zeroed]
  · intro path hp hv
    unfold Scan_ScanObject
    simp [hfile, hp, hv]

/-- C13 witness: a clean file scanned by path, with `*pScanStatus` holding `77`
before the call. -/
theorem C13_clean_result_witness :
    (Scan_ScanObject Headers.sample (ScanExternals.ok 500 0 []) (Instance.inMode 0) [67, 58]
        0 0 0 77 0 Globals.sample).ret = CLAMAPI_SUCCESS ∧
    (Scan_ScanObject Headers.sample (ScanExternals.ok 500 0 []) (Instance.inMode 0) [67, 58]
        0 0 0 77 0 Globals.sample).pScanStatus = 77 ∧
    (Scan_ScanObject Headers.sample (ScanExternals.ok 500 0 []) (Instance.inMode 0) [67, 58]
        0 0 0 77 0 Globals.sample).block = some InfoBlock.zeroed :=
  have h := C13_clean_result Headers.sample (ScanExternals.ok 500 0 []) (Instance.inMode 0)
    5 0 0 0 77 0 Globals.sample [] rfl (by decide) rfl (by decide) rfl (by decide)
  have e := h.2.2.2.2.2 [67, 58] rfl (by decide)
  ⟨e ▸ h.1, e ▸ h.2.1, e ▸ h.2.2.2.1⟩

/-- C14 (evaluation at the failing input): the engine returns the error code
`9`, neither `CL_CLEAN` (`0`) nor `CL_VIRUS` (`1`), in a file-kind scan whose
allocation, duplication and opening succeed. `Scan_ScanObjectByHandle` returns
`CLAMAPI_SUCCESS` with `cbCount = 0`, and its whole outcome equals the outcome
of the same call on a clean file: `res` is compared with `CL_VIRUS` only and
the function ends in `WIN()`. -/
theorem C14_engine_error_returned_as_success :
    (Scan_ScanObjectByHandle Headers.sample (ScanExternals.ok 500 9 []) (Instance.inMode 0)
        5 0 0 0 0 0 Globals.sample).ret = CLAMAPI_SUCCESS ∧
    (Scan_ScanObjectByHandle Headers.sample (ScanExternals.ok 500 9 []) (Instance.inMode 0)
        5 0 0 0 0 0 Globals.sample).block = some InfoBlock.zeroed ∧
    InfoBlock.zeroed.cbCount = 0 ∧
    Scan_ScanObjectByHandle Headers.sample (ScanExternals.ok 500 9 []) (Instance.inMode 0)
        5 0 0 0 0 0 Globals.sample
      = Scan_ScanObjectByHandle Headers.sample (ScanExternals.ok 500 0 []) (Instance.inMode 0)
        5 0 0 0 0 0 Globals.sample := by
  refine ⟨?_, ?_, rfl, ?_⟩ <;> decide

/-- C16 (evaluation at the failing input): `calloc` returns the block `500` and
`DuplicateHandle` fails. `Scan_ScanObjectByHandle` returns failure without
invoking the engine and frees the block, while `*pInfoList`, which held `0`
before the call, is left holding `500`, the address of the freed block; the
same happens when `_open_osfhandle` returns `-1`. -/
theorem C16_failed_scan_leaves_freed_pointer :
    (Scan_ScanObjectByHandle Headers.sample
        { ScanExternals.ok 500 0 [] with DuplicateHandle := fun _ => (false, 0) }
        (Instance.inMode 0) 5 0 0 0 0 0 Globals.sample).ret = CLAMAPI_FAILURE ∧
    (Scan_ScanObjectByHandle Headers.sample
        { ScanExternals.ok 500 0 [] with DuplicateHandle := fun _ => (false, 0) }
        (Instance.inMode 0) 5 0 0 0 0 0 Globals.sample).scanned = none ∧
    (Scan_ScanObjectByHandle Headers.sample
        { ScanExternals.ok 500 0 [] with DuplicateHandle := fun _ => (false, 0) }
        (Instance.inMode 0) 5 0 0 0 0 0 Globals.sample).globals.heap = Globals.sample.heap ∧
    500 ∉ (Scan_ScanObjectByHandle Headers.sample
        { ScanExternals.ok 500 0 [] with DuplicateHandle := fun _ => (false, 0) }
        (Instance.inMode 0) 5 0 0 0 0 0 Globals.sample).globals.heap ∧
    (Scan_ScanObjectByHandle Headers.sample
        { ScanExternals.ok 500 0 [] with DuplicateHandle := fun _ => (false, 0) }
        (Instance.inMode 0) 5 0 0 0 0 0 Globals.sample).pInfoList = 500 ∧
    (Scan_ScanObjectByHandle Headers.sample
        { ScanExternals.ok 500 0 [] with open_osfhandle := fun _ => -1 }
        (Instance.inMode 0) 5 0 0 0 0 0 Globals.sample).ret = CLAMAPI_FAILURE ∧
    (Scan_ScanObjectByHandle Headers.sample
        { ScanExternals.ok 500 0 [] with open_osfhandle := fun _ => -1 }
        (Instance.inMode 0) 5 0 0 0 0 0 Globals.sample).pInfoList = 500 ∧
    500 ∉ (Scan_ScanObjectByHandle Headers.sample
        { ScanExternals.ok 500 0 [] with open_osfhandle := fun _ => -1 }
        (Instance.inMode 0) 5 0 0 0 0 0 Globals.sample).globals.heap := by
  refine ⟨?_, ?_, ?_, ?_, ?_, ?_, ?_, ?_⟩ <;> decide

/-- C19 (evaluation at the failing input): the engine reports a name of 600
bytes. The name buffer is the last `MAX_VIRNAME_LEN = 1024` bytes of the block,
for any sizes of the list header and the entry, but the conversion is given
`MAX_VIRNAME_LEN` as a count of wide characters of two bytes each: it succeeds,
the entry's threat name points to the buffer, and 601 wide characters, 1202
bytes, are stored in the 1024 bytes. -/
theorem C19_name_conversion_overruns_buffer :
    (∀ H : Headers, wvirname_capacity H = MAX_VIRNAME_LEN) ∧
    wvirname_capacity Headers.sample = 1024 ∧
    Option.map (fun b : InfoBlock => b.scaninfo.pThreatName)
        (Scan_ScanObjectByHandle Headers.sample (ScanExternals.ok 500 1 (List.replicate 600 65))
          (Instance.inMode 0) 5 0 0 0 0 0 Globals.sample).block = some WidePtr.wvirname ∧
    Option.map InfoBlock.wvirname_bytes
        (Scan_ScanObjectByHandle Headers.sample (ScanExternals.ok 500 1 (List.replicate 600 65))
          (Instance.inMode 0) 5 0 0 0 0 0 Globals.sample).block = some 1202 := by
  have hlen : (List.replicate 600 65).length + 1 ≤ MAX_VIRNAME_LEN := by
    rw [List.length_replicate]
    decide
  refine ⟨?_, ?_, ?_, ?_⟩
  · intro H
    simp [wvirname_capacity, info_alloc_size, wvirname_offset]
  · decide
  · rw [scan_stores_whole_name _ hlen]
    rfl
  · rw [scan_stores_whole_name _ hlen]
    simp only [Option.map_some', InfoBlock.wvirname_bytes, sizeof_wchar_t, List.length_append,
      List.length_replicate, List.length_singleton]

end ClamWin
